import Mathlib

/-!
# fastmp3 / libmp3.cpp : wrapper layer around the minimp3 engine

Shallow embedding of `src/libmp3/libmp3.cpp`.

* C `int` / `long` values are `Int`; `size_t` / `uint64_t` values are `Nat`.
* Conversions that C defines modulo a power of two are written out:
  `to_size_t` (signed to 64-bit unsigned: the capacity, `length * channels`
  and the seek position) and `to_int` (narrowing to `int`).
* Signed products (`start * channels`, `length * channels`, `byte * 8`) are
  exact integer products: a signed overflow there is undefined in C and has
  no behaviour to embed.
* The decoding engine (minimp3) is a parameter: its open / seek / read
  functions are fields of `Engine`, and every call the wrapper makes is
  recorded in a list of `EngineCall`.
-/

namespace Libmp3

/-! ## Machine integer conversions -/

/-- Conversion of a signed value to `size_t` / `uint64_t` (modulo 2^64). -/
def to_size_t (x : Int) : Nat := (x % 2 ^ 64).toNat

/-- Conversion of an unsigned 64-bit value to `int` (two's complement, modulo 2^32). -/
def to_int (n : Nat) : Int := ((n : Int) + 2 ^ 31) % 2 ^ 32 - 2 ^ 31

/-! ## Data model -/

/-- Record `struct mp3_info` (libmp3.cpp lines 15-20). -/
structure mp3_info where
  samples : Int
  channels : Int
  hz : Int
  bitrate_kbps : Int
deriving DecidableEq, Repr

/-- Modelled from the spec: `mp3dec_frame_info_t` is declared in minimp3.h, which is
not part of the sources; only the fields the wrapper reads are kept (all C `int`). -/
structure mp3dec_frame_info_t where
  channels : Int
  hz : Int
  bitrate_kbps : Int
deriving DecidableEq, Repr

/-- Modelled from the spec: `mp3dec_ex_t` is declared in minimp3_ex.h, which is not
part of the sources. `samples` is the 64-bit unsigned total of interleaved samples,
`last_error` a C `int`, and `priv` stands for the state private to the engine
(read cursor, frame index, buffers). -/
structure mp3dec_ex_t (σ : Type) where
  samples : Nat
  info : mp3dec_frame_info_t
  last_error : Int
  priv : σ

/-- Modelled from the spec: the flag constants `MP3D_SEEK_TO_SAMPLE` and
`MP3D_DO_NOT_SCAN` come from minimp3_ex.h; the two flag words the wrapper passes
are kept symbolic. -/
inductive OpenFlags where
  | seek_to_sample
  | seek_to_sample_do_not_scan
deriving DecidableEq, Repr

/-- One call made by the wrapper into the engine, with its scalar argument. -/
inductive EngineCall where
  | open_buf (flags : OpenFlags)
  | open_file (flags : OpenFlags)
  | seek (position : Nat)
  | read (samples : Nat)
  | close
deriving DecidableEq, Repr

/-- Modelled from the spec: the decoding engine as a black box, already bound to
one input (buffer or file). `mp3dec_ex_open_buf` and `mp3dec_ex_open` return the
error code and the session they leave in `dec`; `mp3dec_ex_seek` receives the
position as a `uint64_t` and returns its error code and the new session;
`mp3dec_ex_read` receives the output storage and the
number of samples requested and returns the number read, the new session and the
new output storage. `α` is the sample type. -/
structure Engine (σ α : Type) where
  mp3dec_ex_open_buf : OpenFlags → Int × mp3dec_ex_t σ
  mp3dec_ex_open : OpenFlags → Int × mp3dec_ex_t σ
  mp3dec_ex_seek : mp3dec_ex_t σ → Nat → Int × mp3dec_ex_t σ
  mp3dec_ex_read : mp3dec_ex_t σ → (Nat → α) → Nat → Nat × mp3dec_ex_t σ × (Nat → α)

/-- Result of a probe: the record returned and the engine calls made, in order. -/
structure ProbeResult where
  info : mp3_info
  calls : List EngineCall
deriving DecidableEq, Repr

/-- Result of a windowed decode: the `int` returned, the engine calls made, in
order, and the output storage as the function leaves it. -/
structure DecodeResult (α : Type) where
  ret : Int
  calls : List EngineCall
  output : Nat → α

/-! ## Probe (libmp3.cpp lines 22-64) -/

/-- Function `mp3_probe_buffer` (lines 22-42). -/
def mp3_probe_buffer {σ α : Type} (E : Engine σ α) : ProbeResult :=
  let o := E.mp3dec_ex_open_buf OpenFlags.seek_to_sample
  let err := o.1
  let dec := o.2
  let info : mp3_info :=
    if err ≠ 0 ∨ dec.info.channels = 0 ∨ dec.info.hz = 0 ∨ dec.info.bitrate_kbps = 0 then
      { samples := -1, channels := -1, hz := -1, bitrate_kbps := -1 }
    else
      { samples := to_int (dec.samples / to_size_t dec.info.channels),
        channels := dec.info.channels,
        hz := dec.info.hz,
        bitrate_kbps := dec.info.bitrate_kbps }
  { info := info,
    calls := [EngineCall.open_buf OpenFlags.seek_to_sample, EngineCall.close] }

/-- Function `mp3_probe_file` (lines 44-64). -/
def mp3_probe_file {σ α : Type} (E : Engine σ α) : ProbeResult :=
  let o := E.mp3dec_ex_open OpenFlags.seek_to_sample
  let err := o.1
  let dec := o.2
  let info : mp3_info :=
    if err ≠ 0 ∨ dec.info.channels = 0 ∨ dec.info.hz = 0 ∨ dec.info.bitrate_kbps = 0 then
      { samples := -1, channels := -1, hz := -1, bitrate_kbps := -1 }
    else
      { samples := to_int (dec.samples / to_size_t dec.info.channels),
        channels := dec.info.channels,
        hz := dec.info.hz,
        bitrate_kbps := dec.info.bitrate_kbps }
  { info := info,
    calls := [EngineCall.open_file OpenFlags.seek_to_sample, EngineCall.close] }

/-! ## Windowed decode (libmp3.cpp lines 67-133) -/

/-- Function `mp3_decode_buffer` (lines 67-99). The three early `return`
statements (lines 77, 81, 94) leave without calling `mp3dec_ex_close`. -/
def mp3_decode_buffer {σ α : Type} (E : Engine σ α)
    (output_buffer : Nat → α) (output_size : Int) (start length : Int) : DecodeResult α :=
  let o := E.mp3dec_ex_open_buf OpenFlags.seek_to_sample_do_not_scan
  let err := o.1
  let dec := o.2
  let c0 := [EngineCall.open_buf OpenFlags.seek_to_sample_do_not_scan]
  if err ≠ 0 ∨ dec.info.channels = 0 ∨ dec.info.hz = 0 ∨ dec.info.bitrate_kbps = 0 then
    { ret := -100, calls := c0, output := output_buffer }
  else
    let position := to_size_t (start * dec.info.channels)
    let s := if start ≠ 0 then E.mp3dec_ex_seek dec position else (0, dec)
    let c1 := if start ≠ 0 then c0 ++ [EngineCall.seek position] else c0
    if start ≠ 0 ∧ s.1 ≠ 0 then
      { ret := -200, calls := c1, output := output_buffer }
    else
      let dec := s.2
      let max_read := to_size_t output_size
      let max_read :=
        if length ≠ 0 ∧ to_size_t (length * dec.info.channels) < max_read then
          to_size_t (length * dec.info.channels)
        else max_read
      let r := E.mp3dec_ex_read dec output_buffer max_read
      let read := r.1
      let dec := r.2.1
      let c2 := c1 ++ [EngineCall.read max_read]
      if read ≠ max_read ∧ dec.last_error ≠ 0 then
        { ret := dec.last_error, calls := c2, output := r.2.2 }
      else
        { ret := to_int read, calls := c2 ++ [EngineCall.close], output := r.2.2 }

/-- Function `mp3_decode_file` (lines 101-133). The three early `return`
statements (lines 111, 115, 128) leave without calling `mp3dec_ex_close`. -/
def mp3_decode_file {σ α : Type} (E : Engine σ α)
    (output_buffer : Nat → α) (output_size : Int) (start length : Int) : DecodeResult α :=
  let o := E.mp3dec_ex_open OpenFlags.seek_to_sample_do_not_scan
  let err := o.1
  let dec := o.2
  let c0 := [EngineCall.open_file OpenFlags.seek_to_sample_do_not_scan]
  if err ≠ 0 ∨ dec.info.channels = 0 ∨ dec.info.hz = 0 ∨ dec.info.bitrate_kbps = 0 then
    { ret := -100, calls := c0, output := output_buffer }
  else
    let position := to_size_t (start * dec.info.channels)
    let s := if start ≠ 0 then E.mp3dec_ex_seek dec position else (0, dec)
    let c1 := if start ≠ 0 then c0 ++ [EngineCall.seek position] else c0
    if start ≠ 0 ∧ s.1 ≠ 0 then
      { ret := -200, calls := c1, output := output_buffer }
    else
      let dec := s.2
      let max_read := to_size_t output_size
      let max_read :=
        if length ≠ 0 ∧ to_size_t (length * dec.info.channels) < max_read then
          to_size_t (length * dec.info.channels)
        else max_read
      let r := E.mp3dec_ex_read dec output_buffer max_read
      let read := r.1
      let dec := r.2.1
      let c2 := c1 ++ [EngineCall.read max_read]
      if read ≠ max_read ∧ dec.last_error ≠ 0 then
        { ret := dec.last_error, calls := c2, output := r.2.2 }
      else
        { ret := to_int read, calls := c2 ++ [EngineCall.close], output := r.2.2 }

/-! ## Bit unpacker (libmp3.cpp lines 174-186) -/

/-- Inner loop of `unpackbits` (lines 180-183), entered with `bit = 0`:
`for (int bit = 0; bit < 8; ++bit) { mask = 7 - bit; dst[index + bit] = ... }`.
The store into the `unsigned char` cell keeps the value modulo 256. -/
def unpackbits_bits (value index : Nat) (bit : Nat) (dst : Nat → Fin 256) : Nat → Fin 256 :=
  if bit < 8 then
    let mask := 7 - bit
    unpackbits_bits value index (bit + 1)
      (Function.update dst (index + bit)
        ⟨((value &&& (1 <<< mask)) >>> mask) % 256, Nat.mod_lt _ (by decide)⟩)
  else dst
termination_by 8 - bit

/-- Outer loop of `unpackbits` (lines 175-184), entered with `byte = 0`:
`for (int byte = 0; byte < src_size; ++byte)`. -/
def unpackbits_bytes (src : Nat → Fin 256) (src_size : Int) (byte : Nat)
    (dst : Nat → Fin 256) : Nat → Fin 256 :=
  if (byte : Int) < src_size then
    let index := byte * 8
    let value := (src byte).val
    unpackbits_bytes src src_size (byte + 1) (unpackbits_bits value index 0 dst)
  else dst
termination_by (src_size - byte).toNat
decreasing_by omega

/-- Function `unpackbits` (lines 174-186): the `int` returned and the storage `dst`
as the function leaves it. `src` and `dst` are the memory behind the two pointers,
indexed from the pointer. -/
def unpackbits (src : Nat → Fin 256) (src_size : Int) (dst : Nat → Fin 256) :
    Int × (Nat → Fin 256) :=
  (0, unpackbits_bytes src src_size 0 dst)

/-! ## Predicates used in the statements -/

/-- The validation test of lines 29, 51, 77 and 111 on the outcome of an open call. -/
@[reducible] def rejected {σ : Type} (o : Int × mp3dec_ex_t σ) : Prop :=
  o.1 ≠ 0 ∨ o.2.info.channels = 0 ∨ o.2.info.hz = 0 ∨ o.2.info.bitrate_kbps = 0

/-- The all-sentinel record `{-1, -1, -1, -1}`. -/
def sentinel : mp3_info := { samples := -1, channels := -1, hz := -1, bitrate_kbps := -1 }

/-- The StreamInfo invariant of the specification: all four fields strictly
positive, or all four equal to -1. -/
@[reducible] def StreamInfoInvariant (i : mp3_info) : Prop :=
  (0 < i.samples ∧ 0 < i.channels ∧ 0 < i.hz ∧ 0 < i.bitrate_kbps) ∨
  (i.samples = -1 ∧ i.channels = -1 ∧ i.hz = -1 ∧ i.bitrate_kbps = -1)

/-- Number of `mp3dec_ex_close` calls in a call sequence. -/
def closes (calls : List EngineCall) : Nat := calls.count EngineCall.close

/-- The session on which the read step of a windowed decode runs, given the
session `dec` left by the open call: the one returned by the seek when `start` is
nonzero, `dec` itself otherwise. -/
def session_at_read {σ α : Type} (E : Engine σ α) (dec : mp3dec_ex_t σ) (start : Int) :
    mp3dec_ex_t σ :=
  if start ≠ 0 then (E.mp3dec_ex_seek dec (to_size_t (start * dec.info.channels))).2 else dec

/-- The seek step of a windowed decode, for a decode with result `R` whose open
call `opened` left the outcome `o`: a seek is among the calls exactly when `start`
is nonzero; its position is `start * channels` converted to `uint64_t`; it directly
follows the open; if it reports an error the result is -200 and no read is among
the calls; when `start` is zero the call after the open is the read, made on the
session exactly as the open left it; and the position is `start * channels` itself
whenever that product is non-negative and below 2^64. -/
def seek_step_contract {σ α : Type} (E : Engine σ α) (o : Int × mp3dec_ex_t σ)
    (opened : EngineCall) (buf : Nat → α) (start : Int) (R : DecodeResult α) : Prop :=
  ((∃ p, EngineCall.seek p ∈ R.calls) ↔ start ≠ 0) ∧
  (∀ p, EngineCall.seek p ∈ R.calls → p = to_size_t (start * o.2.info.channels)) ∧
  (start ≠ 0 →
    R.calls.take 2 = [opened, EngineCall.seek (to_size_t (start * o.2.info.channels))]) ∧
  (start ≠ 0 → (E.mp3dec_ex_seek o.2 (to_size_t (start * o.2.info.channels))).1 ≠ 0 →
    R.ret = -200 ∧ ∀ n, EngineCall.read n ∉ R.calls) ∧
  (start = 0 → ∃ m,
    R.calls.take 2 = [opened, EngineCall.read m] ∧
    R.output = (E.mp3dec_ex_read o.2 buf m).2.2 ∧
    (R.ret = (E.mp3dec_ex_read o.2 buf m).2.1.last_error ∨
     R.ret = to_int (E.mp3dec_ex_read o.2 buf m).1)) ∧
  (∀ p, EngineCall.seek p ∈ R.calls → 0 ≤ start * o.2.info.channels →
    start * o.2.info.channels < 2 ^ 64 → (p : Int) = start * o.2.info.channels)

/-- The mapping of a read outcome to the value returned, for a decode with result
`R` that requested `m` samples and got `r` samples with last-error code `e`: the
error code on a short read with a nonzero code, the read count converted to `int`
otherwise, which is the read count itself when that is below 2^31. -/
def read_step_contract {α : Type} (R : DecodeResult α) (m r : Nat) (e : Int) : Prop :=
  (r ≠ m ∧ e ≠ 0 → R.ret = e) ∧
  (r = m ∨ e = 0 → R.ret = to_int r) ∧
  (r = m ∨ e = 0 → r < 2 ^ 31 → R.ret = (r : Int))

/-! ## Concrete engines used for evaluation -/

/-- A concrete engine: both open calls report `err` and leave the given metadata,
every seek reports `seek_err`, and every read delivers `min requested avail`
samples (writing the value 1 into the cells it fills) and leaves `last_error`. -/
def stream_engine (err : Int) (samples : Nat) (channels hz bitrate_kbps : Int)
    (seek_err : Int) (avail : Nat) (last_error : Int) : Engine Unit Nat :=
  let d : mp3dec_ex_t Unit :=
    { samples := samples,
      info := { channels := channels, hz := hz, bitrate_kbps := bitrate_kbps },
      last_error := 0, priv := () }
  { mp3dec_ex_open_buf := fun _ => (err, d),
    mp3dec_ex_open := fun _ => (err, d),
    mp3dec_ex_seek := fun dec _ => (seek_err, dec),
    mp3dec_ex_read := fun dec out n =>
      (min n avail, { dec with last_error := last_error },
        fun i => if i < min n avail then 1 else out i) }

/-- Output storage holding 0 in every cell. -/
def zero_buffer : Nat → Nat := fun _ => 0

/-- Source memory holding the byte `0xA5` in every cell. -/
def a5_bytes : Nat → Fin 256 := fun _ => 165

/-- Destination memory holding the byte `0xFF` in every cell. -/
def ff_bytes : Nat → Fin 256 := fun _ => 255

/-- The value of `max_read` when the read step is reached (lines 84-89, 118-123),
as a function of the capacity, the requested length and the channel count. -/
def max_read (output_size length channels : Int) : Nat :=
  if length ≠ 0 ∧ to_size_t (length * channels) < to_size_t output_size then
    to_size_t (length * channels)
  else to_size_t output_size

/-- An open outcome that describes a stream with positive metadata whose
per-channel sample count lies between 1 and 2^31 - 1. -/
@[reducible] def positive_stream {σ : Type} (o : Int × mp3dec_ex_t σ) : Prop :=
  0 < o.2.info.channels ∧ o.2.info.channels < 2 ^ 31 ∧ 0 < o.2.info.hz ∧
  0 < o.2.info.bitrate_kbps ∧ o.2.info.channels ≤ (o.2.samples : Int) ∧
  (o.2.samples : Int) < 2 ^ 31 * o.2.info.channels

/-! ## Conversion lemmas -/

theorem to_size_t_of_nonneg (x : Int) (h0 : 0 ≤ x) (h1 : x < 2 ^ 64) :
    (to_size_t x : Int) = x := by
  unfold to_size_t
  rw [Int.toNat_of_nonneg (Int.emod_nonneg _ (by norm_num))]
  exact Int.emod_eq_of_lt h0 h1

theorem to_size_t_lt (x : Int) : to_size_t x < 2 ^ 64 := by
  unfold to_size_t
  have h := Int.emod_lt_of_pos x (show (0 : Int) < 2 ^ 64 by norm_num)
  have h0 := Int.emod_nonneg x (show (2 ^ 64 : Int) ≠ 0 by norm_num)
  omega

theorem to_int_of_lt (n : Nat) (h : n < 2 ^ 31) : to_int n = n := by
  unfold to_int
  omega

/-! ## Probe: C1, C6, C7, C13 -/

theorem probe_quotient {σ : Type} (o : Int × mp3dec_ex_t σ) (h : positive_stream o) :
    to_int (o.2.samples / to_size_t o.2.info.channels) = (o.2.samples : Int) / o.2.info.channels ∧
    0 < (o.2.samples : Int) / o.2.info.channels := by
  obtain ⟨hc0, hc1, -, -, hle, hlt⟩ := h
  have hc : (to_size_t o.2.info.channels : Int) = o.2.info.channels :=
    to_size_t_of_nonneg _ (le_of_lt hc0) (by omega)
  have hq : ((o.2.samples / to_size_t o.2.info.channels : Nat) : Int)
      = (o.2.samples : Int) / o.2.info.channels := by
    rw [Int.natCast_div, hc]
  have hpos : 1 ≤ (o.2.samples : Int) / o.2.info.channels :=
    Int.le_ediv_of_mul_le hc0 (by simpa using hle)
  have hub : (o.2.samples : Int) / o.2.info.channels < 2 ^ 31 :=
    Int.ediv_lt_of_lt_mul hc0 hlt
  have hn : o.2.samples / to_size_t o.2.info.channels < 2 ^ 31 := by
    have : ((o.2.samples / to_size_t o.2.info.channels : Nat) : Int) < 2 ^ 31 := by
      rw [hq]; exact hub
    exact_mod_cast this
  refine ⟨?_, by omega⟩
  rw [to_int_of_lt _ hn, hq]

theorem probe_quotient_exact {σ : Type} (o : Int × mp3dec_ex_t σ)
    (h0 : 0 < o.2.info.channels) (h1 : o.2.info.channels < 2 ^ 31)
    (hq : (o.2.samples : Int) / o.2.info.channels < 2 ^ 31) :
    to_int (o.2.samples / to_size_t o.2.info.channels)
      = (o.2.samples : Int) / o.2.info.channels := by
  have hc : (to_size_t o.2.info.channels : Int) = o.2.info.channels :=
    to_size_t_of_nonneg _ (le_of_lt h0) (by omega)
  have he : ((o.2.samples / to_size_t o.2.info.channels : Nat) : Int)
      = (o.2.samples : Int) / o.2.info.channels := by
    rw [Int.natCast_div, hc]
  have hn : o.2.samples / to_size_t o.2.info.channels < 2 ^ 31 := by
    have : ((o.2.samples / to_size_t o.2.info.channels : Nat) : Int) < 2 ^ 31 := by
      rw [he]; exact hq
    exact_mod_cast this
  rw [to_int_of_lt _ hn, he]


/-- C1 (refuted as stated): a stream that opens without error and reports two
channels, 44100 Hz and 128 kbps but a total of 0 samples is probed as
`{0, 2, 44100, 128}`, a record that is neither all positive nor all -1. -/
theorem probe_mixed_record :
    (mp3_probe_buffer (stream_engine 0 0 2 44100 128 0 0 0)).info
        = { samples := 0, channels := 2, hz := 44100, bitrate_kbps := 128 } ∧
    ¬ StreamInfoInvariant (mp3_probe_buffer (stream_engine 0 0 2 44100 128 0 0 0)).info ∧
    (mp3_probe_file (stream_engine 0 0 2 44100 128 0 0 0)).info
        = { samples := 0, channels := 2, hz := 44100, bitrate_kbps := 128 } ∧
    ¬ StreamInfoInvariant (mp3_probe_file (stream_engine 0 0 2 44100 128 0 0 0)).info := by
  decide

/-- C1 (amended): for every engine, the record returned by `mp3_probe_buffer` and by
`mp3_probe_file` satisfies the StreamInfo invariant whenever the open outcome fails
validation (it is then all -1) and whenever it describes a stream with positive
channel count, sample rate and bitrate whose per-channel sample count
`samples / channels` lies between 1 and 2^31 - 1 (it is then all positive). -/
theorem probe_invariant {σ α : Type} (E : Engine σ α) :
    ((rejected (E.mp3dec_ex_open_buf OpenFlags.seek_to_sample) ∨
        positive_stream (E.mp3dec_ex_open_buf OpenFlags.seek_to_sample)) →
      StreamInfoInvariant (mp3_probe_buffer E).info) ∧
    ((rejected (E.mp3dec_ex_open OpenFlags.seek_to_sample) ∨
        positive_stream (E.mp3dec_ex_open OpenFlags.seek_to_sample)) →
      StreamInfoInvariant (mp3_probe_file E).info) := by
  constructor
  · intro h
    by_cases hr : rejected (E.mp3dec_ex_open_buf OpenFlags.seek_to_sample)
    · right
      simp only [mp3_probe_buffer]
      rw [if_pos hr]
      simp
    · left
      have hp : positive_stream (E.mp3dec_ex_open_buf OpenFlags.seek_to_sample) :=
        h.resolve_left hr
      have hq := probe_quotient _ hp
      simp only [mp3_probe_buffer]
      rw [if_neg hr]
      exact ⟨by rw [hq.1]; exact hq.2, hp.1, hp.2.2.1, hp.2.2.2.1⟩
  · intro h
    by_cases hr : rejected (E.mp3dec_ex_open OpenFlags.seek_to_sample)
    · right
      simp only [mp3_probe_file]
      rw [if_pos hr]
      simp
    · left
      have hp : positive_stream (E.mp3dec_ex_open OpenFlags.seek_to_sample) :=
        h.resolve_left hr
      have hq := probe_quotient _ hp
      simp only [mp3_probe_file]
      rw [if_neg hr]
      exact ⟨by rw [hq.1]; exact hq.2, hp.1, hp.2.2.1, hp.2.2.2.1⟩

/-- Witness for C1 (amended): one stream with positive metadata and 44100 samples per
channel, and one open outcome with a zero channel count. -/
theorem probe_invariant_witness :
    positive_stream ((stream_engine 0 88200 2 44100 128 0 0 0).mp3dec_ex_open_buf
        OpenFlags.seek_to_sample) ∧
    StreamInfoInvariant (mp3_probe_buffer (stream_engine 0 88200 2 44100 128 0 0 0)).info ∧
    rejected ((stream_engine 0 88200 0 44100 128 0 0 0).mp3dec_ex_open
        OpenFlags.seek_to_sample) ∧
    StreamInfoInvariant (mp3_probe_file (stream_engine 0 88200 0 44100 128 0 0 0)).info :=
  ⟨by decide, (probe_invariant (stream_engine 0 88200 2 44100 128 0 0 0)).1 (Or.inr (by decide)),
   by decide, (probe_invariant (stream_engine 0 88200 0 44100 128 0 0 0)).2 (Or.inl (by decide))⟩



/-- C6: for every engine, when the open call reports an error or leaves a zero
channel count, sample rate or bitrate (also when the open call itself reported
success), `mp3_probe_buffer` and `mp3_probe_file` return exactly `{-1, -1, -1, -1}`. -/
theorem probe_rejected_gives_sentinel {σ α : Type} (E : Engine σ α) :
    (rejected (E.mp3dec_ex_open_buf OpenFlags.seek_to_sample) →
      (mp3_probe_buffer E).info = sentinel) ∧
    (rejected (E.mp3dec_ex_open OpenFlags.seek_to_sample) →
      (mp3_probe_file E).info = sentinel) := by
  constructor
  · intro h
    simp only [mp3_probe_buffer, sentinel]
    rw [if_pos h]
  · intro h
    simp only [mp3_probe_file, sentinel]
    rw [if_pos h]

/-- Witness for C6: an open call that reports success with a zero sample rate, and
an open call that reports error -1. -/
theorem probe_rejected_gives_sentinel_witness :
    rejected ((stream_engine 0 88200 2 0 128 0 0 0).mp3dec_ex_open_buf
        OpenFlags.seek_to_sample) ∧
    (mp3_probe_buffer (stream_engine 0 88200 2 0 128 0 0 0)).info = sentinel ∧
    rejected ((stream_engine (-1) 88200 2 44100 128 0 0 0).mp3dec_ex_open
        OpenFlags.seek_to_sample) ∧
    (mp3_probe_file (stream_engine (-1) 88200 2 44100 128 0 0 0)).info = sentinel :=
  ⟨by decide,
   (probe_rejected_gives_sentinel (stream_engine 0 88200 2 0 128 0 0 0)).1 (by decide),
   by decide,
   (probe_rejected_gives_sentinel (stream_engine (-1) 88200 2 44100 128 0 0 0)).2 (by decide)⟩

/-- C7 (refuted as stated): a mono stream that passes validation with a total of
2^31 samples is probed with `samples = -2147483648`, not 2147483648: the quotient
does not fit the `int` field. -/
theorem probe_samples_truncated :
    ¬ rejected ((stream_engine 0 2147483648 1 44100 128 0 0 0).mp3dec_ex_open_buf
        OpenFlags.seek_to_sample) ∧
    (mp3_probe_buffer (stream_engine 0 2147483648 1 44100 128 0 0 0)).info.samples
        = -2147483648 ∧
    (mp3_probe_buffer (stream_engine 0 2147483648 1 44100 128 0 0 0)).info.samples
        ≠ (2147483648 : Int) / 1 ∧
    (mp3_probe_file (stream_engine 0 2147483648 1 44100 128 0 0 0)).info.samples
        ≠ (2147483648 : Int) / 1 := by
  decide

/-- C7 (amended): for every engine whose open outcome passes validation, the
`channels`, `hz` and `bitrate_kbps` fields of the record returned by
`mp3_probe_buffer` and `mp3_probe_file` are the engine's values unchanged, and the
`samples` field is `to_int (samples / to_size_t channels)`; it equals the total
sample count divided by the channel count whenever the channel count is a positive
`int` and that quotient is below 2^31. -/
theorem probe_validated_record {σ α : Type} (E : Engine σ α) :
    (¬ rejected (E.mp3dec_ex_open_buf OpenFlags.seek_to_sample) →
      (mp3_probe_buffer E).info.channels
          = (E.mp3dec_ex_open_buf OpenFlags.seek_to_sample).2.info.channels ∧
      (mp3_probe_buffer E).info.hz
          = (E.mp3dec_ex_open_buf OpenFlags.seek_to_sample).2.info.hz ∧
      (mp3_probe_buffer E).info.bitrate_kbps
          = (E.mp3dec_ex_open_buf OpenFlags.seek_to_sample).2.info.bitrate_kbps ∧
      (mp3_probe_buffer E).info.samples
          = to_int ((E.mp3dec_ex_open_buf OpenFlags.seek_to_sample).2.samples /
              to_size_t (E.mp3dec_ex_open_buf OpenFlags.seek_to_sample).2.info.channels) ∧
      (0 < (E.mp3dec_ex_open_buf OpenFlags.seek_to_sample).2.info.channels →
        (E.mp3dec_ex_open_buf OpenFlags.seek_to_sample).2.info.channels < 2 ^ 31 →
        ((E.mp3dec_ex_open_buf OpenFlags.seek_to_sample).2.samples : Int) /
          (E.mp3dec_ex_open_buf OpenFlags.seek_to_sample).2.info.channels < 2 ^ 31 →
        (mp3_probe_buffer E).info.samples
          = ((E.mp3dec_ex_open_buf OpenFlags.seek_to_sample).2.samples : Int) /
              (E.mp3dec_ex_open_buf OpenFlags.seek_to_sample).2.info.channels)) ∧
    (¬ rejected (E.mp3dec_ex_open OpenFlags.seek_to_sample) →
      (mp3_probe_file E).info.channels
          = (E.mp3dec_ex_open OpenFlags.seek_to_sample).2.info.channels ∧
      (mp3_probe_file E).info.hz
          = (E.mp3dec_ex_open OpenFlags.seek_to_sample).2.info.hz ∧
      (mp3_probe_file E).info.bitrate_kbps
          = (E.mp3dec_ex_open OpenFlags.seek_to_sample).2.info.bitrate_kbps ∧
      (mp3_probe_file E).info.samples
          = to_int ((E.mp3dec_ex_open OpenFlags.seek_to_sample).2.samples /
              to_size_t (E.mp3dec_ex_open OpenFlags.seek_to_sample).2.info.channels) ∧
      (0 < (E.mp3dec_ex_open OpenFlags.seek_to_sample).2.info.channels →
        (E.mp3dec_ex_open OpenFlags.seek_to_sample).2.info.channels < 2 ^ 31 →
        ((E.mp3dec_ex_open OpenFlags.seek_to_sample).2.samples : Int) /
          (E.mp3dec_ex_open OpenFlags.seek_to_sample).2.info.channels < 2 ^ 31 →
        (mp3_probe_file E).info.samples
          = ((E.mp3dec_ex_open OpenFlags.seek_to_sample).2.samples : Int) /
              (E.mp3dec_ex_open OpenFlags.seek_to_sample).2.info.channels)) := by
  constructor
  · intro hr
    simp only [mp3_probe_buffer]
    rw [if_neg hr]
    refine ⟨rfl, rfl, rfl, rfl, ?_⟩
    intro h0 h1 hq
    exact probe_quotient_exact _ h0 h1 hq
  · intro hr
    simp only [mp3_probe_file]
    rw [if_neg hr]
    refine ⟨rfl, rfl, rfl, rfl, ?_⟩
    intro h0 h1 hq
    exact probe_quotient_exact _ h0 h1 hq

/-- Witness for C7 (amended): a stereo stream of 88200 interleaved samples. -/
theorem probe_validated_record_witness :
    ¬ rejected ((stream_engine 0 88200 2 44100 128 0 0 0).mp3dec_ex_open_buf
        OpenFlags.seek_to_sample) ∧
    (mp3_probe_buffer (stream_engine 0 88200 2 44100 128 0 0 0)).info.samples
        = ((88200 : Nat) : Int) / 2 ∧
    (mp3_probe_file (stream_engine 0 88200 2 44100 128 0 0 0)).info.samples
        = ((88200 : Nat) : Int) / 2 :=
  ⟨by decide,
   ((probe_validated_record (stream_engine 0 88200 2 44100 128 0 0 0)).1 (by decide)).2.2.2.2
      (by decide) (by decide) (by decide),
   ((probe_validated_record (stream_engine 0 88200 2 44100 128 0 0 0)).2 (by decide)).2.2.2.2
      (by decide) (by decide) (by decide)⟩

theorem decode_buffer_rejected {σ α : Type} (E : Engine σ α) (buf : Nat → α)
    (cap start len : Int)
    (h : rejected (E.mp3dec_ex_open_buf OpenFlags.seek_to_sample_do_not_scan)) :
    mp3_decode_buffer E buf cap start len
      = { ret := -100,
          calls := [EngineCall.open_buf OpenFlags.seek_to_sample_do_not_scan],
          output := buf } := by
  simp only [mp3_decode_buffer]
  rw [if_pos h]

theorem decode_buffer_seek_failed {σ α : Type} (E : Engine σ α) (buf : Nat → α)
    (cap start len : Int)
    (h : ¬ rejected (E.mp3dec_ex_open_buf OpenFlags.seek_to_sample_do_not_scan))
    (hs : start ≠ 0)
    (he : (E.mp3dec_ex_seek (E.mp3dec_ex_open_buf OpenFlags.seek_to_sample_do_not_scan).2
            (to_size_t (start * (E.mp3dec_ex_open_buf
              OpenFlags.seek_to_sample_do_not_scan).2.info.channels))).1 ≠ 0) :
    mp3_decode_buffer E buf cap start len
      = { ret := -200,
          calls := [EngineCall.open_buf OpenFlags.seek_to_sample_do_not_scan,
                    EngineCall.seek (to_size_t (start * (E.mp3dec_ex_open_buf
                      OpenFlags.seek_to_sample_do_not_scan).2.info.channels))],
          output := buf } := by
  simp only [mp3_decode_buffer]
  rw [if_neg h]
  simp [hs, he]

theorem decode_buffer_reads {σ α : Type} (E : Engine σ α) (buf : Nat → α)
    (cap start len : Int)
    (h : ¬ rejected (E.mp3dec_ex_open_buf OpenFlags.seek_to_sample_do_not_scan))
    (he : start ≠ 0 →
      (E.mp3dec_ex_seek (E.mp3dec_ex_open_buf OpenFlags.seek_to_sample_do_not_scan).2
            (to_size_t (start * (E.mp3dec_ex_open_buf
              OpenFlags.seek_to_sample_do_not_scan).2.info.channels))).1 = 0) :
    mp3_decode_buffer E buf cap start len
      = (let dec0 := (E.mp3dec_ex_open_buf OpenFlags.seek_to_sample_do_not_scan).2
         let dec := session_at_read E dec0 start
         let m := max_read cap len dec.info.channels
         let r := E.mp3dec_ex_read dec buf m
         let pre := if start ≠ 0 then
             [EngineCall.open_buf OpenFlags.seek_to_sample_do_not_scan,
              EngineCall.seek (to_size_t (start * dec0.info.channels))]
           else [EngineCall.open_buf OpenFlags.seek_to_sample_do_not_scan]
         if r.1 ≠ m ∧ r.2.1.last_error ≠ 0 then
           { ret := r.2.1.last_error, calls := pre ++ [EngineCall.read m], output := r.2.2 }
         else
           { ret := to_int r.1, calls := pre ++ [EngineCall.read m, EngineCall.close],
             output := r.2.2 }) := by
  simp only [mp3_decode_buffer]
  rw [if_neg h]
  by_cases hs : start = 0
  · subst hs
    simp [session_at_read, max_read]
  · have he0 := he hs
    simp [session_at_read, max_read, hs, he0]


theorem decode_file_rejected {σ α : Type} (E : Engine σ α) (buf : Nat → α)
    (cap start len : Int)
    (h : rejected (E.mp3dec_ex_open OpenFlags.seek_to_sample_do_not_scan)) :
    mp3_decode_file E buf cap start len
      = { ret := -100,
          calls := [EngineCall.open_file OpenFlags.seek_to_sample_do_not_scan],
          output := buf } := by
  simp only [mp3_decode_file]
  rw [if_pos h]

theorem decode_file_seek_failed {σ α : Type} (E : Engine σ α) (buf : Nat → α)
    (cap start len : Int)
    (h : ¬ rejected (E.mp3dec_ex_open OpenFlags.seek_to_sample_do_not_scan))
    (hs : start ≠ 0)
    (he : (E.mp3dec_ex_seek (E.mp3dec_ex_open OpenFlags.seek_to_sample_do_not_scan).2
            (to_size_t (start * (E.mp3dec_ex_open
              OpenFlags.seek_to_sample_do_not_scan).2.info.channels))).1 ≠ 0) :
    mp3_decode_file E buf cap start len
      = { ret := -200,
          calls := [EngineCall.open_file OpenFlags.seek_to_sample_do_not_scan,
                    EngineCall.seek (to_size_t (start * (E.mp3dec_ex_open
                      OpenFlags.seek_to_sample_do_not_scan).2.info.channels))],
          output := buf } := by
  simp only [mp3_decode_file]
  rw [if_neg h]
  simp [hs, he]

theorem decode_file_reads {σ α : Type} (E : Engine σ α) (buf : Nat → α)
    (cap start len : Int)
    (h : ¬ rejected (E.mp3dec_ex_open OpenFlags.seek_to_sample_do_not_scan))
    (he : start ≠ 0 →
      (E.mp3dec_ex_seek (E.mp3dec_ex_open OpenFlags.seek_to_sample_do_not_scan).2
            (to_size_t (start * (E.mp3dec_ex_open
              OpenFlags.seek_to_sample_do_not_scan).2.info.channels))).1 = 0) :
    mp3_decode_file E buf cap start len
      = (let dec0 := (E.mp3dec_ex_open OpenFlags.seek_to_sample_do_not_scan).2
         let dec := session_at_read E dec0 start
         let m := max_read cap len dec.info.channels
         let r := E.mp3dec_ex_read dec buf m
         let pre := if start ≠ 0 then
             [EngineCall.open_file OpenFlags.seek_to_sample_do_not_scan,
              EngineCall.seek (to_size_t (start * dec0.info.channels))]
           else [EngineCall.open_file OpenFlags.seek_to_sample_do_not_scan]
         if r.1 ≠ m ∧ r.2.1.last_error ≠ 0 then
           { ret := r.2.1.last_error, calls := pre ++ [EngineCall.read m], output := r.2.2 }
         else
           { ret := to_int r.1, calls := pre ++ [EngineCall.read m, EngineCall.close],
             output := r.2.2 }) := by
  simp only [mp3_decode_file]
  rw [if_neg h]
  by_cases hs : start = 0
  · subst hs
    simp [session_at_read, max_read]
  · have he0 := he hs
    simp [session_at_read, max_read, hs, he0]


theorem decode_buffer_read_mem {σ α : Type} (E : Engine σ α) (buf : Nat → α)
    (cap start len : Int) (m : Nat)
    (hm : EngineCall.read m ∈ (mp3_decode_buffer E buf cap start len).calls) :
    ¬ rejected (E.mp3dec_ex_open_buf OpenFlags.seek_to_sample_do_not_scan) ∧
    (start ≠ 0 →
      (E.mp3dec_ex_seek (E.mp3dec_ex_open_buf OpenFlags.seek_to_sample_do_not_scan).2
            (to_size_t (start * (E.mp3dec_ex_open_buf
              OpenFlags.seek_to_sample_do_not_scan).2.info.channels))).1 = 0) ∧
    m = max_read cap len (session_at_read E
          (E.mp3dec_ex_open_buf OpenFlags.seek_to_sample_do_not_scan).2 start).info.channels := by
  by_cases h : rejected (E.mp3dec_ex_open_buf OpenFlags.seek_to_sample_do_not_scan)
  · rw [decode_buffer_rejected E buf cap start len h] at hm
    simp at hm
  · by_cases he : start ≠ 0 →
        (E.mp3dec_ex_seek (E.mp3dec_ex_open_buf OpenFlags.seek_to_sample_do_not_scan).2
            (to_size_t (start * (E.mp3dec_ex_open_buf
              OpenFlags.seek_to_sample_do_not_scan).2.info.channels))).1 = 0
    · refine ⟨h, he, ?_⟩
      rw [decode_buffer_reads E buf cap start len h he] at hm
      simp only at hm
      split_ifs at hm <;> simp at hm <;> exact hm
    · have hs : start ≠ 0 := fun h0 => he (fun h1 => absurd h0 h1)
      have he1 := fun h0 => he (fun _ => h0)
      rw [decode_buffer_seek_failed E buf cap start len h hs he1] at hm
      simp at hm

theorem decode_file_read_mem {σ α : Type} (E : Engine σ α) (buf : Nat → α)
    (cap start len : Int) (m : Nat)
    (hm : EngineCall.read m ∈ (mp3_decode_file E buf cap start len).calls) :
    ¬ rejected (E.mp3dec_ex_open OpenFlags.seek_to_sample_do_not_scan) ∧
    (start ≠ 0 →
      (E.mp3dec_ex_seek (E.mp3dec_ex_open OpenFlags.seek_to_sample_do_not_scan).2
            (to_size_t (start * (E.mp3dec_ex_open
              OpenFlags.seek_to_sample_do_not_scan).2.info.channels))).1 = 0) ∧
    m = max_read cap len (session_at_read E
          (E.mp3dec_ex_open OpenFlags.seek_to_sample_do_not_scan).2 start).info.channels := by
  by_cases h : rejected (E.mp3dec_ex_open OpenFlags.seek_to_sample_do_not_scan)
  · rw [decode_file_rejected E buf cap start len h] at hm
    simp at hm
  · by_cases he : start ≠ 0 →
        (E.mp3dec_ex_seek (E.mp3dec_ex_open OpenFlags.seek_to_sample_do_not_scan).2
            (to_size_t (start * (E.mp3dec_ex_open
              OpenFlags.seek_to_sample_do_not_scan).2.info.channels))).1 = 0
    · refine ⟨h, he, ?_⟩
      rw [decode_file_reads E buf cap start len h he] at hm
      simp only at hm
      split_ifs at hm <;> simp at hm <;> exact hm
    · have hs : start ≠ 0 := fun h0 => he (fun h1 => absurd h0 h1)
      have he1 := fun h0 => he (fun _ => h0)
      rw [decode_file_seek_failed E buf cap start len h hs he1] at hm
      simp at hm

theorem max_read_bounds (cap len ch : Int) (h0 : 0 ≤ cap) (h1 : cap < 2 ^ 31)
    (h2 : 0 ≤ len * ch) (h3 : len * ch < 2 ^ 63) :
    (max_read cap len ch : Int) ≤ cap ∧
    (len ≠ 0 → (max_read cap len ch : Int) ≤ len * ch) ∧
    (len ≠ 0 → len * ch < cap → (max_read cap len ch : Int) = len * ch) := by
  have hc : (to_size_t cap : Int) = cap := to_size_t_of_nonneg cap h0 (by omega)
  have hp : (to_size_t (len * ch) : Int) = len * ch :=
    to_size_t_of_nonneg (len * ch) h2 (by omega)
  unfold max_read
  split_ifs with hif
  · obtain ⟨hl, hlt⟩ := hif
    have hlt' : (to_size_t (len * ch) : Int) < (to_size_t cap : Int) := by exact_mod_cast hlt
    refine ⟨by omega, fun _ => by omega, fun _ _ => by omega⟩
  · refine ⟨by omega, fun hl => ?_, fun hl hlt => ?_⟩
    · have hge : ¬ to_size_t (len * ch) < to_size_t cap := fun hlt => hif ⟨hl, hlt⟩
      have hge' : (to_size_t cap : Int) ≤ (to_size_t (len * ch) : Int) := by
        exact_mod_cast Nat.le_of_not_lt hge
      omega
    · exfalso
      apply hif
      refine ⟨hl, ?_⟩
      have : (to_size_t (len * ch) : Int) < (to_size_t cap : Int) := by omega
      exact_mod_cast this

/-! ## Windowed decode: C2, C3 -/

/-- C2 (the code misses the close): with an engine whose open reports success, the
three early returns of `mp3_decode_buffer` and `mp3_decode_file` are taken without
any `mp3dec_ex_close` call: a zero channel count gives -100 after the open alone,
a failing seek (`start = 5`) gives -200 after open and seek, and a short read
(5 of 16 samples) with engine error -5 gives -5 after open and read. Only the
normal return closes the session, once. -/
theorem decode_early_returns_skip_close :
    (mp3_decode_buffer (stream_engine 0 88200 0 44100 128 0 100 0) zero_buffer 16 0 0).ret
        = -100 ∧
    (mp3_decode_buffer (stream_engine 0 88200 0 44100 128 0 100 0) zero_buffer 16 0 0).calls
        = [EngineCall.open_buf OpenFlags.seek_to_sample_do_not_scan] ∧
    (mp3_decode_buffer (stream_engine 0 88200 2 44100 128 (-1) 100 0) zero_buffer 16 5 0).ret
        = -200 ∧
    (mp3_decode_buffer (stream_engine 0 88200 2 44100 128 (-1) 100 0) zero_buffer 16 5 0).calls
        = [EngineCall.open_buf OpenFlags.seek_to_sample_do_not_scan, EngineCall.seek 10] ∧
    (mp3_decode_buffer (stream_engine 0 88200 2 44100 128 0 5 (-5)) zero_buffer 16 0 0).ret
        = -5 ∧
    (mp3_decode_buffer (stream_engine 0 88200 2 44100 128 0 5 (-5)) zero_buffer 16 0 0).calls
        = [EngineCall.open_buf OpenFlags.seek_to_sample_do_not_scan, EngineCall.read 16] ∧
    closes (mp3_decode_file (stream_engine 0 88200 0 44100 128 0 100 0)
        zero_buffer 16 0 0).calls = 0 ∧
    closes (mp3_decode_file (stream_engine 0 88200 2 44100 128 (-1) 100 0)
        zero_buffer 16 5 0).calls = 0 ∧
    closes (mp3_decode_file (stream_engine 0 88200 2 44100 128 0 5 (-5))
        zero_buffer 16 0 0).calls = 0 ∧
    closes (mp3_decode_buffer (stream_engine 0 88200 2 44100 128 0 100 0)
        zero_buffer 16 0 0).calls = 1 ∧
    closes (mp3_decode_file (stream_engine 0 88200 2 44100 128 0 100 0)
        zero_buffer 16 0 0).calls = 1 := by
  decide

/-- C3 (refuted as stated): with capacity -1 and no requested length the engine is
asked for 2^64 - 1 samples, more than the capacity; with capacity 10, length -1
and two channels, `length * channels = -2` is below the capacity and yet the
engine is asked for 10 samples, more than `length * channels`. -/
theorem decode_request_exceeds_bounds :
    EngineCall.read 18446744073709551615 ∈
      (mp3_decode_buffer (stream_engine 0 88200 2 44100 128 0 100 0)
        zero_buffer (-1) 0 0).calls ∧
    ¬ (((18446744073709551615 : Nat) : Int) ≤ -1) ∧
    EngineCall.read 10 ∈
      (mp3_decode_file (stream_engine 0 88200 2 44100 128 0 100 0)
        zero_buffer 10 0 (-1)).calls ∧
    (-1 : Int) * 2 < 10 ∧
    ¬ (((10 : Nat) : Int) ≤ (-1 : Int) * 2) := by
  decide

/-- C3 (amended): for every engine and every input of `mp3_decode_buffer` and
`mp3_decode_file`, if the engine is asked to read `m` samples, the capacity is a
non-negative `int` and the product `length * channels` (channel count of the
session at the read step) is non-negative and fits a `long`, then `m` is at most
the capacity, and when `length` is nonzero `m` is at most `length * channels` and
equals `length * channels` whenever that product is below the capacity. -/
theorem decode_request_bounded {σ α : Type} (E : Engine σ α) (buf : Nat → α)
    (cap start len : Int) (m : Nat) (h0 : 0 ≤ cap) (h1 : cap < 2 ^ 31) :
    (EngineCall.read m ∈ (mp3_decode_buffer E buf cap start len).calls →
      0 ≤ len * (session_at_read E (E.mp3dec_ex_open_buf
          OpenFlags.seek_to_sample_do_not_scan).2 start).info.channels →
      len * (session_at_read E (E.mp3dec_ex_open_buf
          OpenFlags.seek_to_sample_do_not_scan).2 start).info.channels < 2 ^ 63 →
      (m : Int) ≤ cap ∧
      (len ≠ 0 → (m : Int) ≤ len * (session_at_read E (E.mp3dec_ex_open_buf
          OpenFlags.seek_to_sample_do_not_scan).2 start).info.channels) ∧
      (len ≠ 0 → len * (session_at_read E (E.mp3dec_ex_open_buf
          OpenFlags.seek_to_sample_do_not_scan).2 start).info.channels < cap →
        (m : Int) = len * (session_at_read E (E.mp3dec_ex_open_buf
          OpenFlags.seek_to_sample_do_not_scan).2 start).info.channels)) ∧
    (EngineCall.read m ∈ (mp3_decode_file E buf cap start len).calls →
      0 ≤ len * (session_at_read E (E.mp3dec_ex_open
          OpenFlags.seek_to_sample_do_not_scan).2 start).info.channels →
      len * (session_at_read E (E.mp3dec_ex_open
          OpenFlags.seek_to_sample_do_not_scan).2 start).info.channels < 2 ^ 63 →
      (m : Int) ≤ cap ∧
      (len ≠ 0 → (m : Int) ≤ len * (session_at_read E (E.mp3dec_ex_open
          OpenFlags.seek_to_sample_do_not_scan).2 start).info.channels) ∧
      (len ≠ 0 → len * (session_at_read E (E.mp3dec_ex_open
          OpenFlags.seek_to_sample_do_not_scan).2 start).info.channels < cap →
        (m : Int) = len * (session_at_read E (E.mp3dec_ex_open
          OpenFlags.seek_to_sample_do_not_scan).2 start).info.channels)) := by
  constructor
  · intro hm h2 h3
    rw [(decode_buffer_read_mem E buf cap start len m hm).2.2]
    exact max_read_bounds cap len _ h0 h1 h2 h3
  · intro hm h2 h3
    rw [(decode_file_read_mem E buf cap start len m hm).2.2]
    exact max_read_bounds cap len _ h0 h1 h2 h3

/-- Witness for C3 (amended): capacity 100, start 0, length 10 on a stereo stream:
the engine is asked for 20 samples. -/
theorem decode_request_bounded_witness :
    EngineCall.read 20 ∈ (mp3_decode_buffer (stream_engine 0 88200 2 44100 128 0 100 0)
        zero_buffer 100 0 10).calls ∧
    ((20 : Nat) : Int) ≤ 100 ∧
    EngineCall.read 20 ∈ (mp3_decode_file (stream_engine 0 88200 2 44100 128 0 100 0)
        zero_buffer 100 0 10).calls ∧
    ((10 : Int) ≠ 0 → ((20 : Nat) : Int) ≤ 10 * (session_at_read
        (stream_engine 0 88200 2 44100 128 0 100 0)
        ((stream_engine 0 88200 2 44100 128 0 100 0).mp3dec_ex_open
          OpenFlags.seek_to_sample_do_not_scan).2 0).info.channels) :=
  ⟨by decide,
   ((decode_request_bounded (stream_engine 0 88200 2 44100 128 0 100 0) zero_buffer
      100 0 10 20 (by decide) (by decide)).1 (by decide) (by decide) (by decide)).1,
   by decide,
   ((decode_request_bounded (stream_engine 0 88200 2 44100 128 0 100 0) zero_buffer
      100 0 10 20 (by decide) (by decide)).2 (by decide) (by decide) (by decide)).2.1⟩


/-! ## Windowed decode: C8, C9 -/

theorem probe_buffer_sentinel_iff {σ α : Type} (E : Engine σ α)
    (hs : (E.mp3dec_ex_open_buf OpenFlags.seek_to_sample).2.samples < 2 ^ 64) :
    (mp3_probe_buffer E).info = sentinel ↔
      rejected (E.mp3dec_ex_open_buf OpenFlags.seek_to_sample) := by
  constructor
  · intro h
    by_contra hr
    simp only [mp3_probe_buffer, sentinel] at h
    rw [if_neg hr] at h
    simp only [mp3_info.mk.injEq] at h
    obtain ⟨h1, h2, -, -⟩ := h
    rw [h2] at h1
    have hq : (E.mp3dec_ex_open_buf OpenFlags.seek_to_sample).2.samples /
        to_size_t (-1) < 2 ^ 31 := by
      have : to_size_t (-1) = 2 ^ 64 - 1 := by decide
      rw [this]
      apply Nat.div_lt_of_lt_mul
      omega
    rw [to_int_of_lt _ hq] at h1
    have h3 := Int.natCast_nonneg ((E.mp3dec_ex_open_buf OpenFlags.seek_to_sample).2.samples /
      to_size_t (-1))
    rw [h1] at h3
    exact absurd h3 (by decide)
  · intro h
    simp only [mp3_probe_buffer, sentinel]
    rw [if_pos h]

theorem probe_file_sentinel_iff {σ α : Type} (E : Engine σ α)
    (hs : (E.mp3dec_ex_open OpenFlags.seek_to_sample).2.samples < 2 ^ 64) :
    (mp3_probe_file E).info = sentinel ↔
      rejected (E.mp3dec_ex_open OpenFlags.seek_to_sample) := by
  constructor
  · intro h
    by_contra hr
    simp only [mp3_probe_file, sentinel] at h
    rw [if_neg hr] at h
    simp only [mp3_info.mk.injEq] at h
    obtain ⟨h1, h2, -, -⟩ := h
    rw [h2] at h1
    have hq : (E.mp3dec_ex_open OpenFlags.seek_to_sample).2.samples /
        to_size_t (-1) < 2 ^ 31 := by
      have : to_size_t (-1) = 2 ^ 64 - 1 := by decide
      rw [this]
      apply Nat.div_lt_of_lt_mul
      omega
    rw [to_int_of_lt _ hq] at h1
    have h3 := Int.natCast_nonneg ((E.mp3dec_ex_open OpenFlags.seek_to_sample).2.samples /
      to_size_t (-1))
    rw [h1] at h3
    exact absurd h3 (by decide)
  · intro h
    simp only [mp3_probe_file, sentinel]
    rw [if_pos h]

/-- The outcome of a windowed decode whose open outcome passes validation: a seek
or a read is attempted, and the value returned is -200, the engine's last-error
code, or the converted read count. -/
theorem decode_buffer_validated {σ α : Type} (E : Engine σ α) (buf : Nat → α)
    (cap start len : Int)
    (h : ¬ rejected (E.mp3dec_ex_open_buf OpenFlags.seek_to_sample_do_not_scan)) :
    (mp3_decode_buffer E buf cap start len).calls
        ≠ [EngineCall.open_buf OpenFlags.seek_to_sample_do_not_scan] ∧
    ((mp3_decode_buffer E buf cap start len).ret = -100 →
      ∃ m, EngineCall.read m ∈ (mp3_decode_buffer E buf cap start len).calls ∧
        ((E.mp3dec_ex_read (session_at_read E (E.mp3dec_ex_open_buf
            OpenFlags.seek_to_sample_do_not_scan).2 start) buf m).2.1.last_error = -100 ∨
         to_int (E.mp3dec_ex_read (session_at_read E (E.mp3dec_ex_open_buf
            OpenFlags.seek_to_sample_do_not_scan).2 start) buf m).1 = -100)) := by
  by_cases he : start ≠ 0 →
      (E.mp3dec_ex_seek (E.mp3dec_ex_open_buf OpenFlags.seek_to_sample_do_not_scan).2
          (to_size_t (start * (E.mp3dec_ex_open_buf
            OpenFlags.seek_to_sample_do_not_scan).2.info.channels))).1 = 0
  · have heq := decode_buffer_reads E buf cap start len h he
    simp only at heq
    by_cases hsr :
        (E.mp3dec_ex_read (session_at_read E (E.mp3dec_ex_open_buf
            OpenFlags.seek_to_sample_do_not_scan).2 start) buf
          (max_read cap len (session_at_read E (E.mp3dec_ex_open_buf
            OpenFlags.seek_to_sample_do_not_scan).2 start).info.channels)).1 ≠
          max_read cap len (session_at_read E (E.mp3dec_ex_open_buf
            OpenFlags.seek_to_sample_do_not_scan).2 start).info.channels ∧
        (E.mp3dec_ex_read (session_at_read E (E.mp3dec_ex_open_buf
            OpenFlags.seek_to_sample_do_not_scan).2 start) buf
          (max_read cap len (session_at_read E (E.mp3dec_ex_open_buf
            OpenFlags.seek_to_sample_do_not_scan).2 start).info.channels)).2.1.last_error ≠ 0
    · rw [if_pos hsr] at heq
      rw [heq]
      refine ⟨?_, fun hr => ⟨max_read cap len (session_at_read E (E.mp3dec_ex_open_buf
            OpenFlags.seek_to_sample_do_not_scan).2 start).info.channels, ?_, Or.inl hr⟩⟩
      · split_ifs <;> simp
      · simp
    · rw [if_neg hsr] at heq
      rw [heq]
      refine ⟨?_, fun hr => ⟨max_read cap len (session_at_read E (E.mp3dec_ex_open_buf
            OpenFlags.seek_to_sample_do_not_scan).2 start).info.channels, ?_, Or.inr hr⟩⟩
      · split_ifs <;> simp
      · simp
  · have hs : start ≠ 0 := fun h0 => he (fun h1 => absurd h0 h1)
    have he1 := fun h0 => he (fun _ => h0)
    rw [decode_buffer_seek_failed E buf cap start len h hs he1]
    exact ⟨by simp, fun hr => by simp at hr⟩

theorem decode_file_validated {σ α : Type} (E : Engine σ α) (buf : Nat → α)
    (cap start len : Int)
    (h : ¬ rejected (E.mp3dec_ex_open OpenFlags.seek_to_sample_do_not_scan)) :
    (mp3_decode_file E buf cap start len).calls
        ≠ [EngineCall.open_file OpenFlags.seek_to_sample_do_not_scan] ∧
    ((mp3_decode_file E buf cap start len).ret = -100 →
      ∃ m, EngineCall.read m ∈ (mp3_decode_file E buf cap start len).calls ∧
        ((E.mp3dec_ex_read (session_at_read E (E.mp3dec_ex_open
            OpenFlags.seek_to_sample_do_not_scan).2 start) buf m).2.1.last_error = -100 ∨
         to_int (E.mp3dec_ex_read (session_at_read E (E.mp3dec_ex_open
            OpenFlags.seek_to_sample_do_not_scan).2 start) buf m).1 = -100)) := by
  by_cases he : start ≠ 0 →
      (E.mp3dec_ex_seek (E.mp3dec_ex_open OpenFlags.seek_to_sample_do_not_scan).2
          (to_size_t (start * (E.mp3dec_ex_open
            OpenFlags.seek_to_sample_do_not_scan).2.info.channels))).1 = 0
  · have heq := decode_file_reads E buf cap start len h he
    simp only at heq
    by_cases hsr :
        (E.mp3dec_ex_read (session_at_read E (E.mp3dec_ex_open
            OpenFlags.seek_to_sample_do_not_scan).2 start) buf
          (max_read cap len (session_at_read E (E.mp3dec_ex_open
            OpenFlags.seek_to_sample_do_not_scan).2 start).info.channels)).1 ≠
          max_read cap len (session_at_read E (E.mp3dec_ex_open
            OpenFlags.seek_to_sample_do_not_scan).2 start).info.channels ∧
        (E.mp3dec_ex_read (session_at_read E (E.mp3dec_ex_open
            OpenFlags.seek_to_sample_do_not_scan).2 start) buf
          (max_read cap len (session_at_read E (E.mp3dec_ex_open
            OpenFlags.seek_to_sample_do_not_scan).2 start).info.channels)).2.1.last_error ≠ 0
    · rw [if_pos hsr] at heq
      rw [heq]
      refine ⟨?_, fun hr => ⟨max_read cap len (session_at_read E (E.mp3dec_ex_open
            OpenFlags.seek_to_sample_do_not_scan).2 start).info.channels, ?_, Or.inl hr⟩⟩
      · split_ifs <;> simp
      · simp
    · rw [if_neg hsr] at heq
      rw [heq]
      refine ⟨?_, fun hr => ⟨max_read cap len (session_at_read E (E.mp3dec_ex_open
            OpenFlags.seek_to_sample_do_not_scan).2 start).info.channels, ?_, Or.inr hr⟩⟩
      · split_ifs <;> simp
      · simp
  · have hs : start ≠ 0 := fun h0 => he (fun h1 => absurd h0 h1)
    have he1 := fun h0 => he (fun _ => h0)
    rw [decode_file_seek_failed E buf cap start len h hs he1]
    exact ⟨by simp, fun hr => by simp at hr⟩


/-- C8 (refuted as stated): on a stream that passes validation (the probe returns
`{44100, 2, 44100, 128}`, not the sentinel record), a short read (5 of 16 samples)
after which the engine reports last-error -100 makes `mp3_decode_buffer` and
`mp3_decode_file` return -100 as well; so does, with capacity -1 and no engine
error at all, a read of 4294967196 samples, a count that converts to -100. -/
theorem decode_minus_100_without_sentinel :
    (mp3_probe_buffer (stream_engine 0 88200 2 44100 128 0 5 (-100))).info ≠ sentinel ∧
    (mp3_decode_buffer (stream_engine 0 88200 2 44100 128 0 5 (-100))
        zero_buffer 16 0 0).ret = -100 ∧
    (mp3_probe_file (stream_engine 0 88200 2 44100 128 0 5 (-100))).info ≠ sentinel ∧
    (mp3_decode_file (stream_engine 0 88200 2 44100 128 0 5 (-100))
        zero_buffer 16 0 0).ret = -100 ∧
    (mp3_probe_buffer (stream_engine 0 4294967196 2 44100 128 0 4294967196 0)).info
        ≠ sentinel ∧
    (mp3_decode_buffer (stream_engine 0 4294967196 2 44100 128 0 4294967196 0)
        zero_buffer (-1) 0 0).ret = -100 := by
  decide

/-- C8 (amended): for every engine whose open call gives the decode the outcome it
gives the probe (with a total sample count below 2^64): when the probe returns the
sentinel record, `mp3_decode_buffer` and `mp3_decode_file` return -100, make no
engine call after the open (no seek, no read) and leave the output storage as it
was; when the probe does not return the sentinel record they go on to a seek or a
read, and return -100 only if the engine supplies that value itself, as its
last-error code or as a read count that converts to -100. -/
theorem decode_validation_as_probe {σ α : Type} (E : Engine σ α) (buf : Nat → α)
    (cap start len : Int) :
    (E.mp3dec_ex_open_buf OpenFlags.seek_to_sample
        = E.mp3dec_ex_open_buf OpenFlags.seek_to_sample_do_not_scan →
      (E.mp3dec_ex_open_buf OpenFlags.seek_to_sample).2.samples < 2 ^ 64 →
      ((mp3_probe_buffer E).info = sentinel →
        (mp3_decode_buffer E buf cap start len).ret = -100 ∧
        (mp3_decode_buffer E buf cap start len).calls
          = [EngineCall.open_buf OpenFlags.seek_to_sample_do_not_scan] ∧
        (mp3_decode_buffer E buf cap start len).output = buf) ∧
      ((mp3_probe_buffer E).info ≠ sentinel →
        (mp3_decode_buffer E buf cap start len).calls
          ≠ [EngineCall.open_buf OpenFlags.seek_to_sample_do_not_scan] ∧
        ((mp3_decode_buffer E buf cap start len).ret = -100 →
          ∃ m, EngineCall.read m ∈ (mp3_decode_buffer E buf cap start len).calls ∧
            ((E.mp3dec_ex_read (session_at_read E (E.mp3dec_ex_open_buf
                OpenFlags.seek_to_sample_do_not_scan).2 start) buf m).2.1.last_error = -100 ∨
             to_int (E.mp3dec_ex_read (session_at_read E (E.mp3dec_ex_open_buf
                OpenFlags.seek_to_sample_do_not_scan).2 start) buf m).1 = -100)))) ∧
    (E.mp3dec_ex_open OpenFlags.seek_to_sample
        = E.mp3dec_ex_open OpenFlags.seek_to_sample_do_not_scan →
      (E.mp3dec_ex_open OpenFlags.seek_to_sample).2.samples < 2 ^ 64 →
      ((mp3_probe_file E).info = sentinel →
        (mp3_decode_file E buf cap start len).ret = -100 ∧
        (mp3_decode_file E buf cap start len).calls
          = [EngineCall.open_file OpenFlags.seek_to_sample_do_not_scan] ∧
        (mp3_decode_file E buf cap start len).output = buf) ∧
      ((mp3_probe_file E).info ≠ sentinel →
        (mp3_decode_file E buf cap start len).calls
          ≠ [EngineCall.open_file OpenFlags.seek_to_sample_do_not_scan] ∧
        ((mp3_decode_file E buf cap start len).ret = -100 →
          ∃ m, EngineCall.read m ∈ (mp3_decode_file E buf cap start len).calls ∧
            ((E.mp3dec_ex_read (session_at_read E (E.mp3dec_ex_open
                OpenFlags.seek_to_sample_do_not_scan).2 start) buf m).2.1.last_error = -100 ∨
             to_int (E.mp3dec_ex_read (session_at_read E (E.mp3dec_ex_open
                OpenFlags.seek_to_sample_do_not_scan).2 start) buf m).1 = -100)))) := by
  constructor
  · intro hsame hs
    have hiff := probe_buffer_sentinel_iff E hs
    rw [hsame] at hiff
    constructor
    · intro hp
      rw [decode_buffer_rejected E buf cap start len (hiff.1 hp)]
      exact ⟨rfl, rfl, rfl⟩
    · intro hp
      exact decode_buffer_validated E buf cap start len (fun hr => hp (hiff.2 hr))
  · intro hsame hs
    have hiff := probe_file_sentinel_iff E hs
    rw [hsame] at hiff
    constructor
    · intro hp
      rw [decode_file_rejected E buf cap start len (hiff.1 hp)]
      exact ⟨rfl, rfl, rfl⟩
    · intro hp
      exact decode_file_validated E buf cap start len (fun hr => hp (hiff.2 hr))

/-- Witness for C8 (amended): an open call that reports success with a zero bitrate;
the probe returns the sentinel record and both decodes return -100 after the open
alone. -/
theorem decode_validation_as_probe_witness :
    (mp3_probe_buffer (stream_engine 0 88200 2 44100 0 0 100 0)).info = sentinel ∧
    (mp3_decode_buffer (stream_engine 0 88200 2 44100 0 0 100 0) zero_buffer 16 3 4).ret
        = -100 ∧
    (mp3_probe_file (stream_engine 0 88200 2 44100 0 0 100 0)).info = sentinel ∧
    (mp3_decode_file (stream_engine 0 88200 2 44100 0 0 100 0) zero_buffer 16 3 4).calls
        = [EngineCall.open_file OpenFlags.seek_to_sample_do_not_scan] :=
  ⟨by decide,
   (((decode_validation_as_probe (stream_engine 0 88200 2 44100 0 0 100 0) zero_buffer
      16 3 4).1 rfl (by decide)).1 (by decide)).1,
   by decide,
   (((decode_validation_as_probe (stream_engine 0 88200 2 44100 0 0 100 0) zero_buffer
      16 3 4).2 rfl (by decide)).1 (by decide)).2.1⟩


theorem decode_buffer_seek_step {σ α : Type} (E : Engine σ α) (buf : Nat → α)
    (cap start len : Int)
    (h : ¬ rejected (E.mp3dec_ex_open_buf OpenFlags.seek_to_sample_do_not_scan)) :
    seek_step_contract E (E.mp3dec_ex_open_buf OpenFlags.seek_to_sample_do_not_scan)
      (EngineCall.open_buf OpenFlags.seek_to_sample_do_not_scan) buf start
      (mp3_decode_buffer E buf cap start len) := by
  unfold seek_step_contract
  by_cases he : start ≠ 0 →
      (E.mp3dec_ex_seek (E.mp3dec_ex_open_buf OpenFlags.seek_to_sample_do_not_scan).2
          (to_size_t (start * (E.mp3dec_ex_open_buf
            OpenFlags.seek_to_sample_do_not_scan).2.info.channels))).1 = 0
  · have heq := decode_buffer_reads E buf cap start len h he
    simp only at heq
    by_cases hs : start = 0
    · subst hs
      simp only [ne_eq, not_true_eq_false, if_false, session_at_read] at heq
      rw [heq]
      split_ifs with hsr
      · refine ⟨by simp, by simp, by simp, by simp, fun _ => ⟨_, rfl, rfl, Or.inl rfl⟩,
          fun p hp => by simp at hp⟩
      · refine ⟨by simp, by simp, by simp, by simp, fun _ => ⟨_, rfl, rfl, Or.inr rfl⟩,
          fun p hp => by simp at hp⟩
    · rw [if_pos hs] at heq
      rw [heq]
      split_ifs with hsr
      · refine ⟨by simp [hs], by simp, fun _ => by simp, fun _ hne => absurd (he hs) hne,
          fun h0 => absurd h0 hs, fun p hp h0 h1 => by
          simp at hp
          subst hp
          exact to_size_t_of_nonneg _ h0 h1⟩
      · refine ⟨by simp [hs], by simp, fun _ => by simp, fun _ hne => absurd (he hs) hne,
          fun h0 => absurd h0 hs, fun p hp h0 h1 => by
          simp at hp
          subst hp
          exact to_size_t_of_nonneg _ h0 h1⟩
  · have hs : start ≠ 0 := fun h0 => he (fun h1 => absurd h0 h1)
    have he1 := fun h0 => he (fun _ => h0)
    rw [decode_buffer_seek_failed E buf cap start len h hs he1]
    refine ⟨by simp [hs], by simp, fun _ => by simp, fun _ _ => ⟨rfl, by simp⟩,
      fun h0 => absurd h0 hs, fun p hp h0 h1 => by
          simp at hp
          subst hp
          exact to_size_t_of_nonneg _ h0 h1⟩

theorem decode_file_seek_step {σ α : Type} (E : Engine σ α) (buf : Nat → α)
    (cap start len : Int)
    (h : ¬ rejected (E.mp3dec_ex_open OpenFlags.seek_to_sample_do_not_scan)) :
    seek_step_contract E (E.mp3dec_ex_open OpenFlags.seek_to_sample_do_not_scan)
      (EngineCall.open_file OpenFlags.seek_to_sample_do_not_scan) buf start
      (mp3_decode_file E buf cap start len) := by
  unfold seek_step_contract
  by_cases he : start ≠ 0 →
      (E.mp3dec_ex_seek (E.mp3dec_ex_open OpenFlags.seek_to_sample_do_not_scan).2
          (to_size_t (start * (E.mp3dec_ex_open
            OpenFlags.seek_to_sample_do_not_scan).2.info.channels))).1 = 0
  · have heq := decode_file_reads E buf cap start len h he
    simp only at heq
    by_cases hs : start = 0
    · subst hs
      simp only [ne_eq, not_true_eq_false, if_false, session_at_read] at heq
      rw [heq]
      split_ifs with hsr
      · refine ⟨by simp, by simp, by simp, by simp, fun _ => ⟨_, rfl, rfl, Or.inl rfl⟩,
          fun p hp => by simp at hp⟩
      · refine ⟨by simp, by simp, by simp, by simp, fun _ => ⟨_, rfl, rfl, Or.inr rfl⟩,
          fun p hp => by simp at hp⟩
    · rw [if_pos hs] at heq
      rw [heq]
      split_ifs with hsr
      · refine ⟨by simp [hs], by simp, fun _ => by simp, fun _ hne => absurd (he hs) hne,
          fun h0 => absurd h0 hs, fun p hp h0 h1 => by
          simp at hp
          subst hp
          exact to_size_t_of_nonneg _ h0 h1⟩
      · refine ⟨by simp [hs], by simp, fun _ => by simp, fun _ hne => absurd (he hs) hne,
          fun h0 => absurd h0 hs, fun p hp h0 h1 => by
          simp at hp
          subst hp
          exact to_size_t_of_nonneg _ h0 h1⟩
  · have hs : start ≠ 0 := fun h0 => he (fun h1 => absurd h0 h1)
    have he1 := fun h0 => he (fun _ => h0)
    rw [decode_file_seek_failed E buf cap start len h hs he1]
    refine ⟨by simp [hs], by simp, fun _ => by simp, fun _ _ => ⟨rfl, by simp⟩,
      fun h0 => absurd h0 hs, fun p hp h0 h1 => by
          simp at hp
          subst hp
          exact to_size_t_of_nonneg _ h0 h1⟩

/-- C9 (refuted as stated): on a stereo stream decoded from `start = -5`, the
engine seek is invoked with position 18446744073709551606, the value of
`start * channels = -10` converted to the `uint64_t` position, not with -10. -/
theorem decode_seek_position_converted :
    ¬ rejected ((stream_engine 0 88200 2 44100 128 0 100 0).mp3dec_ex_open_buf
        OpenFlags.seek_to_sample_do_not_scan) ∧
    (mp3_decode_buffer (stream_engine 0 88200 2 44100 128 0 100 0)
        zero_buffer 16 (-5) 0).calls
      = [EngineCall.open_buf OpenFlags.seek_to_sample_do_not_scan,
         EngineCall.seek 18446744073709551606, EngineCall.read 16, EngineCall.close] ∧
    (mp3_decode_file (stream_engine 0 88200 2 44100 128 0 100 0)
        zero_buffer 16 (-5) 0).calls
      = [EngineCall.open_file OpenFlags.seek_to_sample_do_not_scan,
         EngineCall.seek 18446744073709551606, EngineCall.read 16, EngineCall.close] ∧
    ((18446744073709551606 : Nat) : Int) ≠ (-5 : Int) * 2 := by
  decide

/-- C9 (amended): for every engine and every input, when the open outcome passes
validation `mp3_decode_buffer` and `mp3_decode_file` invoke the engine seek if and
only if `start` is nonzero, directly after the open and with position
`start * channels` converted to `uint64_t`, which is `start * channels` itself
whenever that product is non-negative and below 2^64; a seek that reports an error
makes them return -200 with no read among the calls; and when `start` is zero they
make no seek and the read is made on the session exactly as the open left it. -/
theorem decode_seek_step {σ α : Type} (E : Engine σ α) (buf : Nat → α)
    (cap start len : Int) :
    (¬ rejected (E.mp3dec_ex_open_buf OpenFlags.seek_to_sample_do_not_scan) →
      seek_step_contract E (E.mp3dec_ex_open_buf OpenFlags.seek_to_sample_do_not_scan)
        (EngineCall.open_buf OpenFlags.seek_to_sample_do_not_scan) buf start
        (mp3_decode_buffer E buf cap start len)) ∧
    (¬ rejected (E.mp3dec_ex_open OpenFlags.seek_to_sample_do_not_scan) →
      seek_step_contract E (E.mp3dec_ex_open OpenFlags.seek_to_sample_do_not_scan)
        (EngineCall.open_file OpenFlags.seek_to_sample_do_not_scan) buf start
        (mp3_decode_file E buf cap start len)) :=
  ⟨decode_buffer_seek_step E buf cap start len, decode_file_seek_step E buf cap start len⟩

/-- Witness for C9 (amended): a stereo stream whose seek fails, decoded from
`start = 5`: the result is -200, the seek directly follows the open, and its
position is 5 * 2. -/
theorem decode_seek_step_witness :
    ¬ rejected ((stream_engine 0 88200 2 44100 128 (-1) 100 0).mp3dec_ex_open_buf
        OpenFlags.seek_to_sample_do_not_scan) ∧
    (mp3_decode_buffer (stream_engine 0 88200 2 44100 128 (-1) 100 0)
        zero_buffer 16 5 0).ret = -200 ∧
    (mp3_decode_file (stream_engine 0 88200 2 44100 128 (-1) 100 0)
        zero_buffer 16 5 0).calls.take 2
      = [EngineCall.open_file OpenFlags.seek_to_sample_do_not_scan,
         EngineCall.seek (to_size_t (5 *
          ((stream_engine 0 88200 2 44100 128 (-1) 100 0).mp3dec_ex_open
            OpenFlags.seek_to_sample_do_not_scan).2.info.channels))] ∧
    ((10 : Nat) : Int) = 5 * ((stream_engine 0 88200 2 44100 128 (-1) 100 0).mp3dec_ex_open_buf
        OpenFlags.seek_to_sample_do_not_scan).2.info.channels :=
  ⟨by decide,
   (((decode_seek_step (stream_engine 0 88200 2 44100 128 (-1) 100 0) zero_buffer
      16 5 0).1 (by decide)).2.2.2.1 (by decide) (by decide)).1,
   ((decode_seek_step (stream_engine 0 88200 2 44100 128 (-1) 100 0) zero_buffer
      16 5 0).2 (by decide)).2.2.1 (by decide),
   ((decode_seek_step (stream_engine 0 88200 2 44100 128 (-1) 100 0) zero_buffer
      16 5 0).1 (by decide)).2.2.2.2.2 10 (by decide) (by decide) (by decide)⟩

/-! ## Windowed decode: C10, C11, C12 -/

theorem decode_buffer_read_step {σ α : Type} (E : Engine σ α) (buf : Nat → α)
    (cap start len : Int) (m : Nat)
    (hm : EngineCall.read m ∈ (mp3_decode_buffer E buf cap start len).calls) :
    read_step_contract (mp3_decode_buffer E buf cap start len) m
      (E.mp3dec_ex_read (session_at_read E (E.mp3dec_ex_open_buf
          OpenFlags.seek_to_sample_do_not_scan).2 start) buf m).1
      (E.mp3dec_ex_read (session_at_read E (E.mp3dec_ex_open_buf
          OpenFlags.seek_to_sample_do_not_scan).2 start) buf m).2.1.last_error := by
  obtain ⟨h, he, hmr⟩ := decode_buffer_read_mem E buf cap start len m hm
  have heq := decode_buffer_reads E buf cap start len h he
  simp only at heq
  rw [← hmr] at heq
  unfold read_step_contract
  by_cases hsr :
      (E.mp3dec_ex_read (session_at_read E (E.mp3dec_ex_open_buf
          OpenFlags.seek_to_sample_do_not_scan).2 start) buf m).1 ≠ m ∧
      (E.mp3dec_ex_read (session_at_read E (E.mp3dec_ex_open_buf
          OpenFlags.seek_to_sample_do_not_scan).2 start) buf m).2.1.last_error ≠ 0
  · rw [if_pos hsr] at heq
    rw [heq]
    refine ⟨fun _ => rfl, fun h1 => ?_, fun h1 => ?_⟩
    · rcases h1 with h1 | h1
      · exact absurd h1 hsr.1
      · exact absurd h1 hsr.2
    · rcases h1 with h1 | h1
      · exact absurd h1 hsr.1
      · exact absurd h1 hsr.2
  · rw [if_neg hsr] at heq
    rw [heq]
    exact ⟨fun h1 => absurd h1 hsr, fun _ => rfl, fun _ hlt => to_int_of_lt _ hlt⟩

theorem decode_file_read_step {σ α : Type} (E : Engine σ α) (buf : Nat → α)
    (cap start len : Int) (m : Nat)
    (hm : EngineCall.read m ∈ (mp3_decode_file E buf cap start len).calls) :
    read_step_contract (mp3_decode_file E buf cap start len) m
      (E.mp3dec_ex_read (session_at_read E (E.mp3dec_ex_open
          OpenFlags.seek_to_sample_do_not_scan).2 start) buf m).1
      (E.mp3dec_ex_read (session_at_read E (E.mp3dec_ex_open
          OpenFlags.seek_to_sample_do_not_scan).2 start) buf m).2.1.last_error := by
  obtain ⟨h, he, hmr⟩ := decode_file_read_mem E buf cap start len m hm
  have heq := decode_file_reads E buf cap start len h he
  simp only at heq
  rw [← hmr] at heq
  unfold read_step_contract
  by_cases hsr :
      (E.mp3dec_ex_read (session_at_read E (E.mp3dec_ex_open
          OpenFlags.seek_to_sample_do_not_scan).2 start) buf m).1 ≠ m ∧
      (E.mp3dec_ex_read (session_at_read E (E.mp3dec_ex_open
          OpenFlags.seek_to_sample_do_not_scan).2 start) buf m).2.1.last_error ≠ 0
  · rw [if_pos hsr] at heq
    rw [heq]
    refine ⟨fun _ => rfl, fun h1 => ?_, fun h1 => ?_⟩
    · rcases h1 with h1 | h1
      · exact absurd h1 hsr.1
      · exact absurd h1 hsr.2
    · rcases h1 with h1 | h1
      · exact absurd h1 hsr.1
      · exact absurd h1 hsr.2
  · rw [if_neg hsr] at heq
    rw [heq]
    exact ⟨fun h1 => absurd h1 hsr, fun _ => rfl, fun _ hlt => to_int_of_lt _ hlt⟩

/-- C10 (refuted as stated): with capacity -1 the engine is asked for 2^64 - 1
samples; on a mono stream holding 2^31 samples it reads r = 2147483648 samples
with last-error 0, and `mp3_decode_buffer` and `mp3_decode_file` return
-2147483648, not r: the read count does not fit the `int` result. -/
theorem decode_read_count_truncated :
    EngineCall.read 18446744073709551615 ∈
      (mp3_decode_buffer (stream_engine 0 2147483648 1 44100 128 0 2147483648 0)
        zero_buffer (-1) 0 0).calls ∧
    ((stream_engine 0 2147483648 1 44100 128 0 2147483648 0).mp3dec_ex_read
        ((stream_engine 0 2147483648 1 44100 128 0 2147483648 0).mp3dec_ex_open_buf
          OpenFlags.seek_to_sample_do_not_scan).2 zero_buffer 18446744073709551615).1
      = 2147483648 ∧
    ((stream_engine 0 2147483648 1 44100 128 0 2147483648 0).mp3dec_ex_read
        ((stream_engine 0 2147483648 1 44100 128 0 2147483648 0).mp3dec_ex_open_buf
          OpenFlags.seek_to_sample_do_not_scan).2 zero_buffer
          18446744073709551615).2.1.last_error = 0 ∧
    (mp3_decode_buffer (stream_engine 0 2147483648 1 44100 128 0 2147483648 0)
        zero_buffer (-1) 0 0).ret = -2147483648 ∧
    (mp3_decode_file (stream_engine 0 2147483648 1 44100 128 0 2147483648 0)
        zero_buffer (-1) 0 0).ret = -2147483648 ∧
    (-2147483648 : Int) ≠ ((2147483648 : Nat) : Int) := by
  decide

/-- C10 (amended): for every engine and every input of `mp3_decode_buffer` and
`mp3_decode_file` that reaches the read step with a request of `m` samples, with
`r` the number of samples read and `e` the engine's last-error code after the
read: if `r` differs from `m` and `e` is nonzero the function returns `e`;
otherwise it returns `r` converted to `int`, which is `r` itself whenever
`r < 2^31`. -/
theorem decode_read_step {σ α : Type} (E : Engine σ α) (buf : Nat → α)
    (cap start len : Int) (m : Nat) :
    (EngineCall.read m ∈ (mp3_decode_buffer E buf cap start len).calls →
      read_step_contract (mp3_decode_buffer E buf cap start len) m
        (E.mp3dec_ex_read (session_at_read E (E.mp3dec_ex_open_buf
            OpenFlags.seek_to_sample_do_not_scan).2 start) buf m).1
        (E.mp3dec_ex_read (session_at_read E (E.mp3dec_ex_open_buf
            OpenFlags.seek_to_sample_do_not_scan).2 start) buf m).2.1.last_error) ∧
    (EngineCall.read m ∈ (mp3_decode_file E buf cap start len).calls →
      read_step_contract (mp3_decode_file E buf cap start len) m
        (E.mp3dec_ex_read (session_at_read E (E.mp3dec_ex_open
            OpenFlags.seek_to_sample_do_not_scan).2 start) buf m).1
        (E.mp3dec_ex_read (session_at_read E (E.mp3dec_ex_open
            OpenFlags.seek_to_sample_do_not_scan).2 start) buf m).2.1.last_error) :=
  ⟨decode_buffer_read_step E buf cap start len m, decode_file_read_step E buf cap start len m⟩

/-- Witness for C10 (amended): a stream with 5 samples left, capacity 16: a short
read with last-error 0 returns 5, and with last-error -5 returns -5. -/
theorem decode_read_step_witness :
    EngineCall.read 16 ∈ (mp3_decode_buffer (stream_engine 0 88200 2 44100 128 0 5 0)
        zero_buffer 16 0 0).calls ∧
    (mp3_decode_buffer (stream_engine 0 88200 2 44100 128 0 5 0) zero_buffer 16 0 0).ret
      = ((((stream_engine 0 88200 2 44100 128 0 5 0).mp3dec_ex_read
          (session_at_read (stream_engine 0 88200 2 44100 128 0 5 0)
            ((stream_engine 0 88200 2 44100 128 0 5 0).mp3dec_ex_open_buf
              OpenFlags.seek_to_sample_do_not_scan).2 0) zero_buffer 16).1 : Nat) : Int) ∧
    EngineCall.read 16 ∈ (mp3_decode_file (stream_engine 0 88200 2 44100 128 0 5 (-5))
        zero_buffer 16 0 0).calls ∧
    (mp3_decode_file (stream_engine 0 88200 2 44100 128 0 5 (-5)) zero_buffer 16 0 0).ret
      = ((stream_engine 0 88200 2 44100 128 0 5 (-5)).mp3dec_ex_read
          (session_at_read (stream_engine 0 88200 2 44100 128 0 5 (-5))
            ((stream_engine 0 88200 2 44100 128 0 5 (-5)).mp3dec_ex_open
              OpenFlags.seek_to_sample_do_not_scan).2 0) zero_buffer 16).2.1.last_error :=
  ⟨by decide,
   ((decode_read_step (stream_engine 0 88200 2 44100 128 0 5 0) zero_buffer 16 0 0 16).1
      (by decide)).2.2 (Or.inr (by decide)) (by decide),
   by decide,
   ((decode_read_step (stream_engine 0 88200 2 44100 128 0 5 (-5)) zero_buffer 16 0 0 16).2
      (by decide)).1 (by decide)⟩


/-- C11 (refuted as stated): on a short read (5 of 16 samples) after which the
engine reports last-error 7, `mp3_decode_buffer` and `mp3_decode_file` return 7:
the result is not negative and is not the number of samples the engine wrote (5).
And with capacity -1 on a mono stream of 2^31 samples, read in full with no engine
error, the result is -2147483648: negative, although no failure occurred. -/
theorem decode_positive_error_code :
    ((stream_engine 0 88200 2 44100 128 0 5 7).mp3dec_ex_read
        ((stream_engine 0 88200 2 44100 128 0 5 7).mp3dec_ex_open_buf
          OpenFlags.seek_to_sample_do_not_scan).2 zero_buffer 16).1 = 5 ∧
    (mp3_decode_buffer (stream_engine 0 88200 2 44100 128 0 5 7) zero_buffer 16 0 0).ret = 7 ∧
    (mp3_decode_file (stream_engine 0 88200 2 44100 128 0 5 7) zero_buffer 16 0 0).ret = 7 ∧
    ¬ ((7 : Int) < 0) ∧ (7 : Int) ≠ ((5 : Nat) : Int) ∧
    (mp3_decode_buffer (stream_engine 0 2147483648 1 44100 128 0 2147483648 0)
        zero_buffer (-1) 0 0).ret = -2147483648 ∧
    closes (mp3_decode_buffer (stream_engine 0 2147483648 1 44100 128 0 2147483648 0)
        zero_buffer (-1) 0 0).calls = 1 := by
  decide

theorem decode_buffer_result_kinds {σ α : Type} (E : Engine σ α) (buf : Nat → α)
    (cap start len : Int) :
    (mp3_decode_buffer E buf cap start len).ret < 0 ∨
    ∃ m, EngineCall.read m ∈ (mp3_decode_buffer E buf cap start len).calls ∧
      (((E.mp3dec_ex_read (session_at_read E (E.mp3dec_ex_open_buf
            OpenFlags.seek_to_sample_do_not_scan).2 start) buf m).1 ≠ m ∧
        0 < (E.mp3dec_ex_read (session_at_read E (E.mp3dec_ex_open_buf
            OpenFlags.seek_to_sample_do_not_scan).2 start) buf m).2.1.last_error ∧
        (mp3_decode_buffer E buf cap start len).ret
          = (E.mp3dec_ex_read (session_at_read E (E.mp3dec_ex_open_buf
            OpenFlags.seek_to_sample_do_not_scan).2 start) buf m).2.1.last_error) ∨
       (mp3_decode_buffer E buf cap start len).ret
          = to_int (E.mp3dec_ex_read (session_at_read E (E.mp3dec_ex_open_buf
            OpenFlags.seek_to_sample_do_not_scan).2 start) buf m).1) := by
  by_cases h : rejected (E.mp3dec_ex_open_buf OpenFlags.seek_to_sample_do_not_scan)
  · left
    rw [decode_buffer_rejected E buf cap start len h]
    show (-100 : Int) < 0
    decide
  · by_cases he : start ≠ 0 →
        (E.mp3dec_ex_seek (E.mp3dec_ex_open_buf OpenFlags.seek_to_sample_do_not_scan).2
            (to_size_t (start * (E.mp3dec_ex_open_buf
              OpenFlags.seek_to_sample_do_not_scan).2.info.channels))).1 = 0
    · have hmem : EngineCall.read (max_read cap len (session_at_read E (E.mp3dec_ex_open_buf
            OpenFlags.seek_to_sample_do_not_scan).2 start).info.channels)
          ∈ (mp3_decode_buffer E buf cap start len).calls := by
        rw [decode_buffer_reads E buf cap start len h he]
        simp only
        split_ifs <;> simp
      obtain ⟨c1, c2, -⟩ := decode_buffer_read_step E buf cap start len _ hmem
      by_cases hsr :
          (E.mp3dec_ex_read (session_at_read E (E.mp3dec_ex_open_buf
              OpenFlags.seek_to_sample_do_not_scan).2 start) buf
            (max_read cap len (session_at_read E (E.mp3dec_ex_open_buf
              OpenFlags.seek_to_sample_do_not_scan).2 start).info.channels)).1 ≠
            max_read cap len (session_at_read E (E.mp3dec_ex_open_buf
              OpenFlags.seek_to_sample_do_not_scan).2 start).info.channels ∧
          (E.mp3dec_ex_read (session_at_read E (E.mp3dec_ex_open_buf
              OpenFlags.seek_to_sample_do_not_scan).2 start) buf
            (max_read cap len (session_at_read E (E.mp3dec_ex_open_buf
              OpenFlags.seek_to_sample_do_not_scan).2 start).info.channels)).2.1.last_error ≠ 0
      · have hret := c1 hsr
        rcases lt_trichotomy ((E.mp3dec_ex_read (session_at_read E (E.mp3dec_ex_open_buf
              OpenFlags.seek_to_sample_do_not_scan).2 start) buf
            (max_read cap len (session_at_read E (E.mp3dec_ex_open_buf
              OpenFlags.seek_to_sample_do_not_scan).2 start).info.channels)).2.1.last_error) 0
          with hneg | hz | hpos
        · left
          rw [hret]
          exact hneg
        · exact absurd hz hsr.2
        · right
          exact ⟨_, hmem, Or.inl ⟨hsr.1, hpos, hret⟩⟩
      · have hor : (E.mp3dec_ex_read (session_at_read E (E.mp3dec_ex_open_buf
              OpenFlags.seek_to_sample_do_not_scan).2 start) buf
            (max_read cap len (session_at_read E (E.mp3dec_ex_open_buf
              OpenFlags.seek_to_sample_do_not_scan).2 start).info.channels)).1 =
            max_read cap len (session_at_read E (E.mp3dec_ex_open_buf
              OpenFlags.seek_to_sample_do_not_scan).2 start).info.channels ∨
          (E.mp3dec_ex_read (session_at_read E (E.mp3dec_ex_open_buf
              OpenFlags.seek_to_sample_do_not_scan).2 start) buf
            (max_read cap len (session_at_read E (E.mp3dec_ex_open_buf
              OpenFlags.seek_to_sample_do_not_scan).2 start).info.channels)).2.1.last_error = 0 := by
          by_contra hc
          push_neg at hc
          exact hsr hc
        right
        exact ⟨_, hmem, Or.inr (c2 hor)⟩
    · have hs : start ≠ 0 := fun h0 => he (fun h1 => absurd h0 h1)
      have he1 := fun h0 => he (fun _ => h0)
      left
      rw [decode_buffer_seek_failed E buf cap start len h hs he1]
      show (-200 : Int) < 0
      decide

theorem decode_file_result_kinds {σ α : Type} (E : Engine σ α) (buf : Nat → α)
    (cap start len : Int) :
    (mp3_decode_file E buf cap start len).ret < 0 ∨
    ∃ m, EngineCall.read m ∈ (mp3_decode_file E buf cap start len).calls ∧
      (((E.mp3dec_ex_read (session_at_read E (E.mp3dec_ex_open
            OpenFlags.seek_to_sample_do_not_scan).2 start) buf m).1 ≠ m ∧
        0 < (E.mp3dec_ex_read (session_at_read E (E.mp3dec_ex_open
            OpenFlags.seek_to_sample_do_not_scan).2 start) buf m).2.1.last_error ∧
        (mp3_decode_file E buf cap start len).ret
          = (E.mp3dec_ex_read (session_at_read E (E.mp3dec_ex_open
            OpenFlags.seek_to_sample_do_not_scan).2 start) buf m).2.1.last_error) ∨
       (mp3_decode_file E buf cap start len).ret
          = to_int (E.mp3dec_ex_read (session_at_read E (E.mp3dec_ex_open
            OpenFlags.seek_to_sample_do_not_scan).2 start) buf m).1) := by
  by_cases h : rejected (E.mp3dec_ex_open OpenFlags.seek_to_sample_do_not_scan)
  · left
    rw [decode_file_rejected E buf cap start len h]
    show (-100 : Int) < 0
    decide
  · by_cases he : start ≠ 0 →
        (E.mp3dec_ex_seek (E.mp3dec_ex_open OpenFlags.seek_to_sample_do_not_scan).2
            (to_size_t (start * (E.mp3dec_ex_open
              OpenFlags.seek_to_sample_do_not_scan).2.info.channels))).1 = 0
    · have hmem : EngineCall.read (max_read cap len (session_at_read E (E.mp3dec_ex_open
            OpenFlags.seek_to_sample_do_not_scan).2 start).info.channels)
          ∈ (mp3_decode_file E buf cap start len).calls := by
        rw [decode_file_reads E buf cap start len h he]
        simp only
        split_ifs <;> simp
      obtain ⟨c1, c2, -⟩ := decode_file_read_step E buf cap start len _ hmem
      by_cases hsr :
          (E.mp3dec_ex_read (session_at_read E (E.mp3dec_ex_open
              OpenFlags.seek_to_sample_do_not_scan).2 start) buf
            (max_read cap len (session_at_read E (E.mp3dec_ex_open
              OpenFlags.seek_to_sample_do_not_scan).2 start).info.channels)).1 ≠
            max_read cap len (session_at_read E (E.mp3dec_ex_open
              OpenFlags.seek_to_sample_do_not_scan).2 start).info.channels ∧
          (E.mp3dec_ex_read (session_at_read E (E.mp3dec_ex_open
              OpenFlags.seek_to_sample_do_not_scan).2 start) buf
            (max_read cap len (session_at_read E (E.mp3dec_ex_open
              OpenFlags.seek_to_sample_do_not_scan).2 start).info.channels)).2.1.last_error ≠ 0
      · have hret := c1 hsr
        rcases lt_trichotomy ((E.mp3dec_ex_read (session_at_read E (E.mp3dec_ex_open
              OpenFlags.seek_to_sample_do_not_scan).2 start) buf
            (max_read cap len (session_at_read E (E.mp3dec_ex_open
              OpenFlags.seek_to_sample_do_not_scan).2 start).info.channels)).2.1.last_error) 0
          with hneg | hz | hpos
        · left
          rw [hret]
          exact hneg
        · exact absurd hz hsr.2
        · right
          exact ⟨_, hmem, Or.inl ⟨hsr.1, hpos, hret⟩⟩
      · have hor : (E.mp3dec_ex_read (session_at_read E (E.mp3dec_ex_open
              OpenFlags.seek_to_sample_do_not_scan).2 start) buf
            (max_read cap len (session_at_read E (E.mp3dec_ex_open
              OpenFlags.seek_to_sample_do_not_scan).2 start).info.channels)).1 =
            max_read cap len (session_at_read E (E.mp3dec_ex_open
              OpenFlags.seek_to_sample_do_not_scan).2 start).info.channels ∨
          (E.mp3dec_ex_read (session_at_read E (E.mp3dec_ex_open
              OpenFlags.seek_to_sample_do_not_scan).2 start) buf
            (max_read cap len (session_at_read E (E.mp3dec_ex_open
              OpenFlags.seek_to_sample_do_not_scan).2 start).info.channels)).2.1.last_error = 0 := by
          by_contra hc
          push_neg at hc
          exact hsr hc
        right
        exact ⟨_, hmem, Or.inr (c2 hor)⟩
    · have hs : start ≠ 0 := fun h0 => he (fun h1 => absurd h0 h1)
      have he1 := fun h0 => he (fun _ => h0)
      left
      rw [decode_file_seek_failed E buf cap start len h hs he1]
      show (-200 : Int) < 0
      decide

/-- C11 (amended): for every engine and every input, the `int` returned by
`mp3_decode_buffer` and `mp3_decode_file` is a negative code, or the engine's
positive last-error code after a short read, or the count of samples read
converted to `int` (`to_int`, the count itself when below 2^31). The sign
separates a failure from a sample count only for an engine whose error codes are
negative. -/
theorem decode_result_kinds {σ α : Type} (E : Engine σ α) (buf : Nat → α)
    (cap start len : Int) :
    ((mp3_decode_buffer E buf cap start len).ret < 0 ∨
    ∃ m, EngineCall.read m ∈ (mp3_decode_buffer E buf cap start len).calls ∧
      (((E.mp3dec_ex_read (session_at_read E (E.mp3dec_ex_open_buf
            OpenFlags.seek_to_sample_do_not_scan).2 start) buf m).1 ≠ m ∧
        0 < (E.mp3dec_ex_read (session_at_read E (E.mp3dec_ex_open_buf
            OpenFlags.seek_to_sample_do_not_scan).2 start) buf m).2.1.last_error ∧
        (mp3_decode_buffer E buf cap start len).ret
          = (E.mp3dec_ex_read (session_at_read E (E.mp3dec_ex_open_buf
            OpenFlags.seek_to_sample_do_not_scan).2 start) buf m).2.1.last_error) ∨
       (mp3_decode_buffer E buf cap start len).ret
          = to_int (E.mp3dec_ex_read (session_at_read E (E.mp3dec_ex_open_buf
            OpenFlags.seek_to_sample_do_not_scan).2 start) buf m).1)) ∧
    ((mp3_decode_file E buf cap start len).ret < 0 ∨
    ∃ m, EngineCall.read m ∈ (mp3_decode_file E buf cap start len).calls ∧
      (((E.mp3dec_ex_read (session_at_read E (E.mp3dec_ex_open
            OpenFlags.seek_to_sample_do_not_scan).2 start) buf m).1 ≠ m ∧
        0 < (E.mp3dec_ex_read (session_at_read E (E.mp3dec_ex_open
            OpenFlags.seek_to_sample_do_not_scan).2 start) buf m).2.1.last_error ∧
        (mp3_decode_file E buf cap start len).ret
          = (E.mp3dec_ex_read (session_at_read E (E.mp3dec_ex_open
            OpenFlags.seek_to_sample_do_not_scan).2 start) buf m).2.1.last_error) ∨
       (mp3_decode_file E buf cap start len).ret
          = to_int (E.mp3dec_ex_read (session_at_read E (E.mp3dec_ex_open
            OpenFlags.seek_to_sample_do_not_scan).2 start) buf m).1)) :=
  ⟨decode_buffer_result_kinds E buf cap start len, decode_file_result_kinds E buf cap start len⟩


/-- C12 (refuted as stated): on a valid mono stream holding T = 5 samples, whose
read delivers `min requested 5` samples with no error, `mp3_decode_buffer` called
with capacity C = -1, `start = 0` and `length = 0` returns 5, not `min C T = -1`. -/
theorem decode_negative_capacity :
    ¬ rejected ((stream_engine 0 5 1 44100 128 0 5 0).mp3dec_ex_open_buf
        OpenFlags.seek_to_sample_do_not_scan) ∧
    (mp3_decode_buffer (stream_engine 0 5 1 44100 128 0 5 0) zero_buffer (-1) 0 0).ret = 5 ∧
    (mp3_decode_buffer (stream_engine 0 5 1 44100 128 0 5 0) zero_buffer (-1) 0 0).ret
      ≠ min (-1 : Int) ((5 : Nat) : Int) := by
  decide

/-- C12 (amended): for every engine whose open outcome passes validation and whose
read delivers `min requested T` samples with last-error 0, and for every capacity
`C` with `0 ≤ C < 2^31` (a non-negative `int`), `mp3_decode_buffer` called with
`start = 0` and `length = 0` returns `min C T`. -/
theorem decode_whole_stream {σ α : Type} (E : Engine σ α) (buf : Nat → α)
    (C : Int) (T : Nat)
    (hv : ¬ rejected (E.mp3dec_ex_open_buf OpenFlags.seek_to_sample_do_not_scan))
    (hread : ∀ (dec : mp3dec_ex_t σ) (out : Nat → α) (n : Nat),
      (E.mp3dec_ex_read dec out n).1 = min n T ∧
      (E.mp3dec_ex_read dec out n).2.1.last_error = 0)
    (h0 : 0 ≤ C) (h1 : C < 2 ^ 31) :
    (mp3_decode_buffer E buf C 0 0).ret = min C (T : Int) := by
  have heq := decode_buffer_reads E buf C 0 0 hv (fun h => absurd rfl h)
  simp only [session_at_read, max_read, ne_eq, not_true_eq_false, false_and, if_false] at heq
  have hc : (to_size_t C : Int) = C := to_size_t_of_nonneg C h0 (by omega)
  obtain ⟨hr, hz⟩ := hread (E.mp3dec_ex_open_buf OpenFlags.seek_to_sample_do_not_scan).2
    buf (to_size_t C)
  rw [heq, if_neg (fun hsr => hsr.2 hz)]
  show to_int _ = _
  rw [hr]
  have hlt : min (to_size_t C) T < 2 ^ 31 := by
    have : (to_size_t C : Int) < 2 ^ 31 := by rw [hc]; exact h1
    have h2 : to_size_t C < 2 ^ 31 := by exact_mod_cast this
    exact lt_of_le_of_lt (Nat.min_le_left _ _) h2
  rw [to_int_of_lt _ hlt, Nat.cast_min, hc]

/-- Witness for C12 (amended): a stereo stream with 100 samples available and
capacity 16. -/
theorem decode_whole_stream_witness :
    (mp3_decode_buffer (stream_engine 0 88200 2 44100 128 0 100 0) zero_buffer 16 0 0).ret
      = min (16 : Int) ((100 : Nat) : Int) :=
  decode_whole_stream (stream_engine 0 88200 2 44100 128 0 100 0) zero_buffer 16 100
    (by decide) (fun _ _ _ => ⟨rfl, rfl⟩) (by decide) (by decide)

/-! ## Buffer and file variants: C15 -/

/-- C15: for every engine whose two open primitives leave the same outcome, and
every output storage, capacity, start and length, `mp3_decode_file` and
`mp3_decode_buffer` return the same value, leave the same output storage and make
the same engine calls after the open (the same seek, read and close calls with the
same arguments), and `mp3_probe_file` and `mp3_probe_buffer` return the same
record and make the same calls after the open; the first call is
`mp3dec_ex_open` in the file variants and `mp3dec_ex_open_buf` in the buffer
variants, with the same flags. -/
theorem file_variant_same_as_buffer {σ α : Type} (E : Engine σ α) (buf : Nat → α)
    (cap start len : Int) :
    (E.mp3dec_ex_open OpenFlags.seek_to_sample_do_not_scan
        = E.mp3dec_ex_open_buf OpenFlags.seek_to_sample_do_not_scan →
      (mp3_decode_file E buf cap start len).ret = (mp3_decode_buffer E buf cap start len).ret ∧
      (mp3_decode_file E buf cap start len).output
        = (mp3_decode_buffer E buf cap start len).output ∧
      (mp3_decode_file E buf cap start len).calls.tail
        = (mp3_decode_buffer E buf cap start len).calls.tail ∧
      (mp3_decode_file E buf cap start len).calls.head?
        = some (EngineCall.open_file OpenFlags.seek_to_sample_do_not_scan) ∧
      (mp3_decode_buffer E buf cap start len).calls.head?
        = some (EngineCall.open_buf OpenFlags.seek_to_sample_do_not_scan)) ∧
    (E.mp3dec_ex_open OpenFlags.seek_to_sample
        = E.mp3dec_ex_open_buf OpenFlags.seek_to_sample →
      (mp3_probe_file E).info = (mp3_probe_buffer E).info ∧
      (mp3_probe_file E).calls.tail = (mp3_probe_buffer E).calls.tail ∧
      (mp3_probe_file E).calls.head? = some (EngineCall.open_file OpenFlags.seek_to_sample) ∧
      (mp3_probe_buffer E).calls.head?
        = some (EngineCall.open_buf OpenFlags.seek_to_sample)) := by
  constructor
  · intro hopen
    simp only [mp3_decode_file, mp3_decode_buffer]
    rw [hopen]
    split_ifs <;> simp
  · intro hopen
    simp only [mp3_probe_file, mp3_probe_buffer]
    rw [hopen]
    simp

/-- Witness for C15: a stereo stream decoded from `start = 3` with `length = 4` into
a storage of capacity 16. -/
theorem file_variant_same_as_buffer_witness :
    (mp3_decode_file (stream_engine 0 88200 2 44100 128 0 100 0) zero_buffer 16 3 4).ret
      = (mp3_decode_buffer (stream_engine 0 88200 2 44100 128 0 100 0)
          zero_buffer 16 3 4).ret ∧
    (mp3_probe_file (stream_engine 0 88200 2 44100 128 0 100 0)).info
      = (mp3_probe_buffer (stream_engine 0 88200 2 44100 128 0 100 0)).info :=
  ⟨((file_variant_same_as_buffer (stream_engine 0 88200 2 44100 128 0 100 0) zero_buffer
      16 3 4).1 rfl).1,
   ((file_variant_same_as_buffer (stream_engine 0 88200 2 44100 128 0 100 0) zero_buffer
      16 3 4).2 rfl).1⟩


/-! ## Bit unpacker: C4, C5, C14, C16 -/

theorem extract_bit (v mask : Nat) :
    ((v &&& (1 <<< mask)) >>> mask) % 256 = (v >>> mask) &&& 1 := by
  have h1 : (1 : Nat) <<< mask = 2 ^ mask := by simp [Nat.shiftLeft_eq]
  have h2 : (v &&& 2 ^ mask) >>> mask = (v >>> mask) &&& 1 := by
    apply Nat.eq_of_testBit_eq
    intro i
    simp only [Nat.testBit_shiftRight, Nat.testBit_and, Nat.testBit_two_pow]
    have h3 : Nat.testBit 1 i = decide (i = 0) := by
      have := @Nat.testBit_two_pow 0 i
      simpa [eq_comm] using this
    rw [h3]
    by_cases hi : i = 0
    · subst hi; simp
    · have : ¬ (mask = mask + i) := by omega
      simp [hi, this]
  rw [h1, h2, Nat.and_one_is_mod]
  omega

theorem unpackbits_bits_spec (value index : Nat) :
    ∀ (k bit : Nat) (dst : Nat → Fin 256) (j : Nat), bit + k = 8 →
      (unpackbits_bits value index bit dst j).val
        = if index + bit ≤ j ∧ j < index + 8 then (value >>> (7 - (j - index))) &&& 1
          else (dst j).val := by
  intro k
  induction k with
  | zero =>
    intro bit dst j hk
    have hb : ¬ bit < 8 := by omega
    rw [unpackbits_bits, if_neg hb]
    have : ¬ (index + bit ≤ j ∧ j < index + 8) := by omega
    rw [if_neg this]
  | succ k ih =>
    intro bit dst j hk
    have hb : bit < 8 := by omega
    rw [unpackbits_bits, if_pos hb]
    rw [ih (bit + 1) _ j (by omega)]
    by_cases hj : j = index + bit
    · subst hj
      have h1 : ¬ (index + (bit + 1) ≤ index + bit ∧ index + bit < index + 8) := by omega
      have h2 : index + bit ≤ index + bit ∧ index + bit < index + 8 := by omega
      rw [if_neg h1, if_pos h2, Function.update_same]
      simp only
      rw [extract_bit]
      have : index + bit - index = bit := by omega
      rw [this]
    · rw [Function.update_noteq hj]
      by_cases h1 : index + (bit + 1) ≤ j ∧ j < index + 8
      · have h2 : index + bit ≤ j ∧ j < index + 8 := by omega
        rw [if_pos h1, if_pos h2]
      · have h2 : ¬ (index + bit ≤ j ∧ j < index + 8) := by omega
        rw [if_neg h1, if_neg h2]

theorem unpackbits_bytes_spec (src : Nat → Fin 256) (src_size : Int) :
    ∀ (k byte : Nat) (dst : Nat → Fin 256) (j : Nat), (src_size - byte).toNat = k →
      (unpackbits_bytes src src_size byte dst j).val
        = if 8 * byte ≤ j ∧ (j : Int) < 8 * src_size then
            ((src (j / 8)).val >>> (7 - j % 8)) &&& 1
          else (dst j).val := by
  intro k
  induction k with
  | zero =>
    intro byte dst j hk
    have hb : ¬ (byte : Int) < src_size := by omega
    rw [unpackbits_bytes, if_neg hb]
    have : ¬ (8 * byte ≤ j ∧ (j : Int) < 8 * src_size) := by omega
    rw [if_neg this]
  | succ k ih =>
    intro byte dst j hk
    have hb : (byte : Int) < src_size := by omega
    rw [unpackbits_bytes, if_pos hb]
    rw [ih (byte + 1) _ j (by omega), unpackbits_bits_spec (src byte).val (byte * 8) 8 0 dst j rfl]
    by_cases h1 : 8 * (byte + 1) ≤ j ∧ (j : Int) < 8 * src_size
    · have h2 : 8 * byte ≤ j ∧ (j : Int) < 8 * src_size := by omega
      rw [if_pos h1, if_pos h2]
    · rw [if_neg h1]
      by_cases h3 : byte * 8 + 0 ≤ j ∧ j < byte * 8 + 8
      · have h2 : 8 * byte ≤ j ∧ (j : Int) < 8 * src_size := by omega
        have h4 : j / 8 = byte := by omega
        have h5 : j - byte * 8 = j % 8 := by omega
        rw [if_pos h3, if_pos h2, h4, h5]
      · have h2 : ¬ (8 * byte ≤ j ∧ (j : Int) < 8 * src_size) := by omega
        rw [if_neg h3, if_neg h2]

theorem unpackbits_spec (src : Nat → Fin 256) (src_size : Int) (dst : Nat → Fin 256)
    (j : Nat) :
    ((unpackbits src src_size dst).2 j).val
      = if (j : Int) < 8 * src_size then ((src (j / 8)).val >>> (7 - j % 8)) &&& 1
        else (dst j).val := by
  unfold unpackbits
  simp only
  rw [unpackbits_bytes_spec src src_size _ 0 dst j rfl]
  by_cases h : (j : Int) < 8 * src_size
  · rw [if_pos h, if_pos ⟨by omega, h⟩]
  · rw [if_neg h, if_neg (fun hc => h hc.2)]

/-- C16: for every source memory, every `src_size` and every initial destination,
`unpackbits` returns 0 and leaves every destination cell at index
`8 * max src_size 0` or above unchanged; for `src_size ≤ 0` the destination is
left entirely unchanged and the result does not depend on the source memory
(nothing is read from it). -/
theorem unpackbits_frame (src : Nat → Fin 256) (src_size : Int) (dst : Nat → Fin 256) :
    (unpackbits src src_size dst).1 = 0 ∧
    (∀ j : Nat, 8 * max src_size 0 ≤ (j : Int) → (unpackbits src src_size dst).2 j = dst j) ∧
    (src_size ≤ 0 →
      (unpackbits src src_size dst).2 = dst ∧
      ∀ src2 : Nat → Fin 256, unpackbits src2 src_size dst = unpackbits src src_size dst) := by
  refine ⟨rfl, fun j hj => ?_, fun h0 => ⟨?_, fun src2 => ?_⟩⟩
  · apply Fin.ext
    have : ¬ (j : Int) < 8 * src_size := by
      rcases le_total src_size 0 with h | h
      · rw [max_eq_right h] at hj; omega
      · rw [max_eq_left h] at hj; omega
    rw [unpackbits_spec, if_neg this]
  · funext j
    apply Fin.ext
    rw [unpackbits_spec, if_neg (by omega)]
  · have hb : ¬ ((0 : Nat) : Int) < src_size := by omega
    unfold unpackbits
    rw [unpackbits_bytes, if_neg hb, unpackbits_bytes, if_neg hb]

/-- Witness for C16: `src_size = -2` leaves a destination full of `0xFF` unchanged,
and `src_size = 2` leaves cell 16 unchanged. -/
theorem unpackbits_frame_witness :
    (unpackbits a5_bytes (-2) ff_bytes).2 = ff_bytes ∧
    (unpackbits a5_bytes 2 ff_bytes).2 16 = ff_bytes 16 :=
  ⟨((unpackbits_frame a5_bytes (-2) ff_bytes).2.2 (by decide)).1,
   (unpackbits_frame a5_bytes 2 ff_bytes).2.1 16 (by decide)⟩
end Libmp3
